import Mathlib

/-!
# XPowersCommon: register access over a two-wire bus

A shallow embedding of `src/XPowersCommon.tpp` (the class template
`XPowersCommon<chipType>`) and theorems about it.

Conventions of the embedding.

* The accessor's data members are the fields of the structure `XPowersCommon`.
  The source declares `__wire` only under `ARDUINO` and `__i2c_num` only under
  `ESP_PLATFORM`; the structure carries both, and the functions of one platform
  never touch the member of the other.
* Everything outside the accessor is the `World`: the state the user's
  callbacks act on (`user`), the state of the platform (bus driver, heap) the
  built-in transport calls into (`sys`), and a `trace`, the list of calls the
  accessor has made to its collaborators, oldest first.  The trace is
  instrumentation: it is only ever appended to, by the accessor's own code.
* The platform's functions (`TwoWire` methods, the ESP-IDF `i2c_*` functions,
  `malloc`/`free`) are not part of the source file.  They are a parameter:
  `Env.sys` answers every `SysCall`.
* The variant's `initImpl()` is not part of the source file either.  It is a
  parameter of every `begin`; it sees the accessor's members, may act on the
  user state and the platform state, and returns a `bool`.
* `uint8_t` and `int` values are `Nat` and `Int`.  Arguments are taken to be in
  the range of their C type; where the source narrows a wider value to
  `uint8_t` the embedding reduces modulo 256 at that place.
* A buffer `uint8_t *buf` is the list of its bytes; a function that may write
  through the pointer returns the buffer's new content.
-/

namespace XPowers

/-! ## Collaborators -/

/-- The build targets with a built-in transport: `ARDUINO` (with the
`ARDUINO_ARCH_RP2040 || ARDUINO_ARCH_STM32` sub-branch as a flag) and
`ESP_PLATFORM`. -/
inductive Platform where
  | arduino (rp2040OrStm32 : Bool)
  | espIdf
  deriving DecidableEq, Repr

/-- The constant `XPOWERSLIB_I2C_MASTER_SEEED`, the bus clock in Hz. -/
def XPOWERSLIB_I2C_MASTER_SEEED : Nat := 400000

/-- The constant `XPOWERSLIB_I2C_MASTER_RX_BUF_DISABLE`. -/
def XPOWERSLIB_I2C_MASTER_RX_BUF_DISABLE : Nat := 0

/-- The constant `XPOWERSLIB_I2C_MASTER_TX_BUF_DISABLE`. -/
def XPOWERSLIB_I2C_MASTER_TX_BUF_DISABLE : Nat := 0

/-- The ESP-IDF status `ESP_OK`. -/
def ESP_OK : Int := 0

/-- The calls the built-in transport makes to the platform.  A `TwoWire` object
is named by a number (`wire`); the `i2c_config_t` handed to `i2c_param_config`
is given by the members the source sets (master mode and both pull-ups are
constants there); the time-out argument of the two `i2c_master_*` calls is a
platform constant and is left out. -/
inductive SysCall where
  | wireEnd (wire : Nat)
  | wireSetSDA (wire : Nat) (sda : Int)
  | wireSetSCL (wire : Nat) (scl : Int)
  | wireBegin (wire : Nat)
  | wireBeginPins (wire : Nat) (sda scl : Int)
  | wireBeginTransmission (wire : Nat) (addr : Nat)
  | wireWrite (wire : Nat) (byte : Nat)
  | wireWriteBuf (wire : Nat) (buf : List Nat) (length : Nat)
  | wireEndTransmission (wire : Nat)
  | wireRequestFrom (wire : Nat) (addr : Nat) (length : Nat)
  | wireReadBytes (wire : Nat) (buf : List Nat) (length : Nat)
  | i2c_param_config (port : Int) (sda scl : Int) (clk_speed : Nat)
  | i2c_driver_install (port : Int) (rxBuf txBuf : Nat)
  | i2c_master_write_read_device (port : Int) (addr : Nat) (wr : List Nat) (wrLen : Nat)
      (rd : List Nat) (rdLen : Nat)
  | i2c_master_write_to_device (port : Int) (addr : Nat) (payload : List Nat) (len : Nat)
  | malloc (size : Nat)
  | free
  deriving DecidableEq, Repr

/-- What a platform call gives back: its return value (`status`; for `malloc`,
0 is the null pointer) and, for the calls that fill a buffer, the buffer's new
content (`data`). -/
structure SysReply where
  status : Int
  data : List Nat
  deriving DecidableEq, Repr

/-- A call the accessor made to one of its collaborators. -/
inductive Event where
  | initImpl
  | readCallback (devAddr regAddr : Nat) (data : List Nat) (len : Nat)
  | writeCallback (devAddr regAddr : Nat) (data : List Nat) (len : Nat)
  | sys (c : SysCall)
  deriving DecidableEq, Repr

/-- Everything outside the accessor. -/
structure World (σ β : Type) where
  user : σ
  sys : β
  trace : List Event

/-- The build target and the platform's behaviour. -/
structure Env (β : Type) where
  platform : Platform
  sys : β → SysCall → SysReply × β

/-- The callback type `typedef int (*iic_fptr_t)(uint8_t devAddr, uint8_t regAddr, uint8_t *data, uint8_t len)`:
a callback acts on the user state and returns its status and the new content of
`data`. -/
abbrev iic_fptr_t (σ : Type) : Type :=
  σ → Nat → Nat → List Nat → Nat → Int × List Nat × σ

/-! ## The accessor -/

/-- The data members of `XPowersCommon<chipType>`; a null pointer is `none`. -/
structure XPowersCommon (σ : Type) where
  __has_init : Bool
  __wire : Option Nat
  __i2c_num : Int
  __sda : Int
  __scl : Int
  __addr : Nat
  thisReadRegCallback : Option (iic_fptr_t σ)
  thisWriteRegCallback : Option (iic_fptr_t σ)

/-- The members' default initialisers.  `__i2c_num` has none in the source, so
its initial value is an argument. -/
def XPowersCommon.init (σ : Type) (i2c_num : Int) : XPowersCommon σ :=
  { __has_init := false
    __wire := none
    __i2c_num := i2c_num
    __sda := -1
    __scl := -1
    __addr := 0xFF
    thisReadRegCallback := none
    thisWriteRegCallback := none }

/-- The type of the variant's `initImpl()`. -/
abbrev InitImpl (σ β : Type) : Type :=
  XPowersCommon σ → σ → β → Bool × σ × β

/-- One call to the platform: the reply, with the call logged. -/
def sysCall {σ β : Type} (env : Env β) (w : World σ β) (c : SysCall) :
    SysReply × World σ β :=
  let r := env.sys w.sys c
  (r.1, { w with sys := r.2, trace := w.trace ++ [Event.sys c] })

/-- The expression `thisChip().initImpl()`: the variant's result, with the call logged. -/
def callInitImpl {σ β : Type} (initImpl : InitImpl σ β) (a : XPowersCommon σ)
    (w : World σ β) : Bool × World σ β :=
  let r := initImpl a w.user w.sys
  (r.1, { user := r.2.1, sys := r.2.2, trace := w.trace ++ [Event.initImpl] })

/-- The expression `thisReadRegCallback(__addr, reg, buf, length)`. -/
def callReadCallback {σ β : Type} (cb : iic_fptr_t σ) (a : XPowersCommon σ)
    (w : World σ β) (reg : Nat) (buf : List Nat) (length : Nat) :
    Int × List Nat × World σ β :=
  let r := cb w.user a.__addr reg buf length
  (r.1, r.2.1,
    { w with user := r.2.2, trace := w.trace ++ [Event.readCallback a.__addr reg buf length] })

/-- The expression `thisWriteRegCallback(__addr, reg, buf, length)`. -/
def callWriteCallback {σ β : Type} (cb : iic_fptr_t σ) (a : XPowersCommon σ)
    (w : World σ β) (reg : Nat) (buf : List Nat) (length : Nat) :
    Int × List Nat × World σ β :=
  let r := cb w.user a.__addr reg buf length
  (r.1, r.2.1,
    { w with user := r.2.2, trace := w.trace ++ [Event.writeCallback a.__addr reg buf length] })

/-! ### bind -/

/-- The world after the `TwoWire` set-up of `begin`: under
`ARDUINO_ARCH_RP2040 || ARDUINO_ARCH_STM32` the calls `end()`, `setSDA(sda)`,
`setSCL(scl)`, `begin()`, otherwise the one call `begin(sda, scl)`. -/
def wireSetup {σ β : Type} (env : Env β) (rp2040OrStm32 : Bool) (w : World σ β)
    (wire : Nat) (sda scl : Int) : World σ β :=
  if rp2040OrStm32 then
    let w := (sysCall env w (SysCall.wireEnd wire)).2
    let w := (sysCall env w (SysCall.wireSetSDA wire sda)).2
    let w := (sysCall env w (SysCall.wireSetSCL wire scl)).2
    (sysCall env w (SysCall.wireBegin wire)).2
  else
    (sysCall env w (SysCall.wireBeginPins wire sda scl)).2

/-- The member `bool begin(TwoWire &w, uint8_t addr, int sda, int scl)` (`ARDUINO`). -/
def beginWire {σ β : Type} (env : Env β) (rp2040OrStm32 : Bool) (initImpl : InitImpl σ β)
    (a : XPowersCommon σ) (w : World σ β) (wire : Nat) (addr : Nat) (sda scl : Int) :
    Bool × XPowersCommon σ × World σ β :=
  if a.__has_init then
    let r := callInitImpl initImpl a w
    (r.1, a, r.2)
  else
    let a1 := { a with __has_init := true, __sda := sda, __scl := scl, __wire := some wire }
    let w1 := wireSetup env rp2040OrStm32 w wire a1.__sda a1.__scl
    let a2 := { a1 with __addr := addr }
    let r := callInitImpl initImpl a2 w1
    (r.1, a2, r.2)

/-- The world after the bus set-up of the ESP-IDF `begin`: `i2c_param_config`
with the configuration the source fills in, then `i2c_driver_install`; neither
result is looked at. -/
def i2cSetup {σ β : Type} (env : Env β) (w : World σ β) (i2c_num : Int) (sda scl : Int) :
    World σ β :=
  let w1 := (sysCall env w
    (SysCall.i2c_param_config i2c_num sda scl XPOWERSLIB_I2C_MASTER_SEEED)).2
  (sysCall env w1
    (SysCall.i2c_driver_install i2c_num
      XPOWERSLIB_I2C_MASTER_RX_BUF_DISABLE XPOWERSLIB_I2C_MASTER_TX_BUF_DISABLE)).2

/-- The member `bool begin(i2c_port_t port_num, uint8_t addr, int sda, int scl)` (`ESP_PLATFORM`). -/
def beginPort {σ β : Type} (env : Env β) (initImpl : InitImpl σ β)
    (a : XPowersCommon σ) (w : World σ β) (port_num : Int) (addr : Nat) (sda scl : Int) :
    Bool × XPowersCommon σ × World σ β :=
  let a0 := { a with __i2c_num := port_num }
  if a0.__has_init then
    let r := callInitImpl initImpl a0 w
    (r.1, a0, r.2)
  else
    let a1 := { a0 with __sda := sda, __scl := scl, __addr := addr,
                        thisReadRegCallback := none, thisWriteRegCallback := none }
    let w1 := i2cSetup env w a1.__i2c_num sda scl
    let r := callInitImpl initImpl a1 w1
    let a2 := { a1 with __has_init := r.1 }
    (a2.__has_init, a2, r.2)

/-- The built-in bind of the build target: the `TwoWire` form under `ARDUINO`,
the port form under `ESP_PLATFORM`.  `bus` is the `TwoWire` object, respectively
the port number. -/
def beginBuiltin {σ β : Type} (env : Env β) (initImpl : InitImpl σ β)
    (a : XPowersCommon σ) (w : World σ β) (bus : Nat) (addr : Nat) (sda scl : Int) :
    Bool × XPowersCommon σ × World σ β :=
  match env.platform with
  | Platform.arduino f => beginWire env f initImpl a w bus addr sda scl
  | Platform.espIdf => beginPort env initImpl a w (bus : Int) addr sda scl

/-- The member `bool begin(uint8_t addr, iic_fptr_t readRegCallback, iic_fptr_t writeRegCallback)`. -/
def beginCallback {σ β : Type} (initImpl : InitImpl σ β)
    (a : XPowersCommon σ) (w : World σ β) (addr : Nat)
    (readRegCallback writeRegCallback : Option (iic_fptr_t σ)) :
    Bool × XPowersCommon σ × World σ β :=
  if a.__has_init then
    let r := callInitImpl initImpl a w
    (r.1, a, r.2)
  else
    let a1 := { a with __has_init := true,
                       thisReadRegCallback := readRegCallback,
                       thisWriteRegCallback := writeRegCallback,
                       __addr := addr }
    let r := callInitImpl initImpl a1 w
    (r.1, a1, r.2)

/-- The protected `bool begin()`. -/
def beginProtected {σ β : Type} (env : Env β) (initImpl : InitImpl σ β)
    (a : XPowersCommon σ) (w : World σ β) : Bool × XPowersCommon σ × World σ β :=
  match env.platform with
  | Platform.arduino f =>
    if a.__has_init then
      let r := callInitImpl initImpl a w
      (r.1, a, r.2)
    else
      let a1 := { a with __has_init := true }
      let w1 :=
        match a1.__wire with
        | some wire => wireSetup env f w wire a1.__sda a1.__scl
        | none => w
      let r := callInitImpl initImpl a1 w1
      (r.1, a1, r.2)
  | Platform.espIdf =>
    let r := callInitImpl initImpl a w
    (r.1, a, r.2)

/-! ### Register access -/

/-- The member `int readRegister(uint8_t reg, uint8_t *buf, uint8_t length)`:
status, new content of `buf`, new world. -/
def readRegisterBuf {σ β : Type} (env : Env β) (a : XPowersCommon σ) (w : World σ β)
    (reg : Nat) (buf : List Nat) (length : Nat) : Int × List Nat × World σ β :=
  match a.thisReadRegCallback with
  | some cb => callReadCallback cb a w reg buf length
  | none =>
    match env.platform with
    | Platform.arduino _ =>
      match a.__wire with
      | some wire =>
        let w := (sysCall env w (SysCall.wireBeginTransmission wire a.__addr)).2
        let w := (sysCall env w (SysCall.wireWrite wire reg)).2
        let e := sysCall env w (SysCall.wireEndTransmission wire)
        if e.1.status ≠ 0 then
          (-1, buf, e.2)
        else
          let w := (sysCall env e.2 (SysCall.wireRequestFrom wire a.__addr length)).2
          let r := sysCall env w (SysCall.wireReadBytes wire buf length)
          (if r.1.status = (length : Int) then 0 else -1, r.1.data, r.2)
      | none => (-1, buf, w)
    | Platform.espIdf =>
      let r := sysCall env w
        (SysCall.i2c_master_write_read_device a.__i2c_num a.__addr [reg] 1 buf length)
      if ESP_OK ≠ r.1.status then
        (-1, r.1.data, r.2)
      else
        (0, r.1.data, r.2)

/-- The member `int writeRegister(uint8_t reg, uint8_t *buf, uint8_t length)`:
status, content of `buf` afterwards, new world. -/
def writeRegisterBuf {σ β : Type} (env : Env β) (a : XPowersCommon σ) (w : World σ β)
    (reg : Nat) (buf : List Nat) (length : Nat) : Int × List Nat × World σ β :=
  match a.thisWriteRegCallback with
  | some cb => callWriteCallback cb a w reg buf length
  | none =>
    match env.platform with
    | Platform.arduino _ =>
      match a.__wire with
      | some wire =>
        let w := (sysCall env w (SysCall.wireBeginTransmission wire a.__addr)).2
        let w := (sysCall env w (SysCall.wireWrite wire reg)).2
        let w := (sysCall env w (SysCall.wireWriteBuf wire buf length)).2
        let e := sysCall env w (SysCall.wireEndTransmission wire)
        (if e.1.status = 0 then 0 else -1, buf, e.2)
      | none => (-1, buf, w)
    | Platform.espIdf =>
      let m := sysCall env w (SysCall.malloc (length + 1))
      if m.1.status = 0 then
        (-1, buf, m.2)
      else
        let write_buffer := reg :: buf.take length
        let r := sysCall env m.2
          (SysCall.i2c_master_write_to_device a.__i2c_num a.__addr write_buffer (length + 1))
        if ESP_OK ≠ r.1.status then
          let w := (sysCall env r.2 SysCall.free).2
          (-1, buf, w)
        else
          let w := (sysCall env r.2 SysCall.free).2
          (0, buf, w)

/-- The member `int readRegister(uint8_t reg)`.  `val` is a `uint8_t`: whatever the
transport left in the one-byte buffer is read as a value in 0..255. -/
def readRegister {σ β : Type} (env : Env β) (a : XPowersCommon σ) (w : World σ β)
    (reg : Nat) : Int × World σ β :=
  let r := readRegisterBuf env a w reg [0] 1
  let val : Nat := r.2.1.headD 0 % 256
  (if r.1 = -1 then -1 else (val : Int), r.2.2)

/-- The member `int writeRegister(uint8_t reg, uint8_t val)`. -/
def writeRegister {σ β : Type} (env : Env β) (a : XPowersCommon σ) (w : World σ β)
    (reg : Nat) (val : Nat) : Int × World σ β :=
  let r := writeRegisterBuf env a w reg [val] 1
  (r.1, r.2.2)

/-- The macro `#define _BV(b) (1ULL << (uint64_t)(b))`, a 64-bit unsigned value.  The
source's shift is undefined for `b ≥ 64`; the definition gives 0 there. -/
def _BV (b : Nat) : Nat := (1 <<< b) % 2 ^ 64

/-- Conversion of an `int` to `unsigned long long`, as the usual arithmetic
conversions do for the operands of `&` and `|` next to `_BV`. -/
def toULL (v : Int) : Nat := (v % 2 ^ 64).toNat

/-- The complement `~x` on an `unsigned long long`. -/
def notULL (x : Nat) : Nat := 2 ^ 64 - 1 - x % 2 ^ 64

/-- The member `bool clrRegisterBit(uint8_t registers, uint8_t bit)`. -/
def clrRegisterBit {σ β : Type} (env : Env β) (a : XPowersCommon σ) (w : World σ β)
    (registers bit : Nat) : Bool × World σ β :=
  let r := readRegister env a w registers
  let val := r.1
  if val = -1 then
    (false, r.2)
  else
    let s := writeRegister env a r.2 registers ((toULL val &&& notULL (_BV bit)) % 256)
    (decide (s.1 = 0), s.2)

/-- The member `bool setRegisterBit(uint8_t registers, uint8_t bit)`. -/
def setRegisterBit {σ β : Type} (env : Env β) (a : XPowersCommon σ) (w : World σ β)
    (registers bit : Nat) : Bool × World σ β :=
  let r := readRegister env a w registers
  let val := r.1
  if val = -1 then
    (false, r.2)
  else
    let s := writeRegister env a r.2 registers ((toULL val ||| _BV bit) % 256)
    (decide (s.1 = 0), s.2)

/-- The member `bool getRegisterBit(uint8_t registers, uint8_t bit)`. -/
def getRegisterBit {σ β : Type} (env : Env β) (a : XPowersCommon σ) (w : World σ β)
    (registers bit : Nat) : Bool × World σ β :=
  let r := readRegister env a w registers
  let val := r.1
  if val = -1 then
    (false, r.2)
  else
    (decide (toULL val &&& _BV bit ≠ 0), r.2)

/-- The member `uint16_t readRegisterH8L4(uint8_t highReg, uint8_t lowReg)`.  Past the
test against -1 both `int`s hold a byte, so the `int` arithmetic is done on
their values as naturals; the result is narrowed to `uint16_t`. -/
def readRegisterH8L4 {σ β : Type} (env : Env β) (a : XPowersCommon σ) (w : World σ β)
    (highReg lowReg : Nat) : Nat × World σ β :=
  let h := readRegister env a w highReg
  let l := readRegister env a h.2 lowReg
  let h8 := h.1
  let l4 := l.1
  if h8 = -1 ∨ l4 = -1 then (0, l.2)
  else (((h8.toNat <<< 4) ||| (l4.toNat &&& 0x0F)) % 2 ^ 16, l.2)

/-- The member `uint16_t readRegisterH8L5(uint8_t highReg, uint8_t lowReg)`. -/
def readRegisterH8L5 {σ β : Type} (env : Env β) (a : XPowersCommon σ) (w : World σ β)
    (highReg lowReg : Nat) : Nat × World σ β :=
  let h := readRegister env a w highReg
  let l := readRegister env a h.2 lowReg
  let h8 := h.1
  let l5 := l.1
  if h8 = -1 ∨ l5 = -1 then (0, l.2)
  else (((h8.toNat <<< 5) ||| (l5.toNat &&& 0x1F)) % 2 ^ 16, l.2)

/-- The member `uint16_t readRegisterH6L8(uint8_t highReg, uint8_t lowReg)`. -/
def readRegisterH6L8 {σ β : Type} (env : Env β) (a : XPowersCommon σ) (w : World σ β)
    (highReg lowReg : Nat) : Nat × World σ β :=
  let h := readRegister env a w highReg
  let l := readRegister env a h.2 lowReg
  let h6 := h.1
  let l8 := l.1
  if h6 = -1 ∨ l8 = -1 then (0, l.2)
  else ((((h6.toNat &&& 0x3F) <<< 8) ||| l8.toNat) % 2 ^ 16, l.2)

/-- The member `uint16_t readRegisterH5L8(uint8_t highReg, uint8_t lowReg)`. -/
def readRegisterH5L8 {σ β : Type} (env : Env β) (a : XPowersCommon σ) (w : World σ β)
    (highReg lowReg : Nat) : Nat × World σ β :=
  let h := readRegister env a w highReg
  let l := readRegister env a h.2 lowReg
  let h5 := h.1
  let l8 := l.1
  if h5 = -1 ∨ l8 = -1 then (0, l.2)
  else ((((h5.toNat &&& 0x1F) <<< 8) ||| l8.toNat) % 2 ^ 16, l.2)

/-! ## A register-file transport -/

/-- The state of the register-file transport: the byte held by each register. -/
abbrev RegFile : Type := Nat → Nat

/-- Stores the bytes of a list into consecutive registers, starting at `reg`
(register numbers wrap at 256). -/
def storeBytes (s : RegFile) (reg : Nat) : List Nat → RegFile
  | [] => s
  | b :: bs => storeBytes (fun k => if k = reg % 256 then b else s k) (reg + 1) bs

/-- Modelled from the spec: the read callback of the "fake transport that models
a byte-addressable register file" of the testable properties, which is not in
the source.  It returns the stored bytes of `len` consecutive registers starting
at `regAddr`, with status 0, for every device address. -/
def regFileRead : iic_fptr_t RegFile :=
  fun s _devAddr regAddr data len =>
    (0, (List.range len).map (fun i => s ((regAddr + i) % 256)) ++ data.drop len, s)

/-- Modelled from the spec: the write callback of the same fake transport.  It
stores the first `len` bytes of `data` at `regAddr` and the registers after it,
and returns status 0. -/
def regFileWrite : iic_fptr_t RegFile :=
  fun s _devAddr regAddr data len => (0, data, storeBytes s regAddr (data.take len))

/-- A platform on which every call answers status 0 and no data. -/
def quietEnv (p : Platform) : Env Unit :=
  { platform := p, sys := fun b _ => ({ status := 0, data := [] }, b) }

/-- An accessor bound to the register-file transport at address 0x34, with a
bus handle and port configured as well. -/
def regFileAccessor : XPowersCommon RegFile :=
  { __has_init := true
    __wire := some 0
    __i2c_num := 0
    __sda := 21
    __scl := 22
    __addr := 0x34
    thisReadRegCallback := some regFileRead
    thisWriteRegCallback := some regFileWrite }

/-- A world whose registers all hold 0 and in which nothing has been called yet. -/
def zeroWorld : World RegFile Unit :=
  { user := fun _ => 0, sys := (), trace := [] }

/-- A read callback that reports status 1, not 0, and leaves the buffer alone. -/
def failingRead : iic_fptr_t RegFile :=
  fun s _devAddr _regAddr data _len => (1, data, s)

/-- The accessor `regFileAccessor` with `failingRead` bound as its read callback. -/
def failingReadAccessor : XPowersCommon RegFile :=
  { regFileAccessor with thisReadRegCallback := some failingRead }

/-! ## Sequences of register operations -/

/-- A call of one of the accessor's public register operations. -/
inductive RegOp where
  | readRegister (reg : Nat)
  | writeRegister (reg val : Nat)
  | readRegisterBuf (reg : Nat) (buf : List Nat) (length : Nat)
  | writeRegisterBuf (reg : Nat) (buf : List Nat) (length : Nat)
  | setRegisterBit (registers bit : Nat)
  | clrRegisterBit (registers bit : Nat)
  | getRegisterBit (registers bit : Nat)
  | readRegisterH8L4 (highReg lowReg : Nat)
  | readRegisterH8L5 (highReg lowReg : Nat)
  | readRegisterH6L8 (highReg lowReg : Nat)
  | readRegisterH5L8 (highReg lowReg : Nat)
  deriving DecidableEq, Repr

/-- The world after one register operation (the operations leave the accessor's
members alone). -/
def runOp {σ β : Type} (env : Env β) (a : XPowersCommon σ) (w : World σ β) :
    RegOp → World σ β
  | RegOp.readRegister reg => (readRegister env a w reg).2
  | RegOp.writeRegister reg val => (writeRegister env a w reg val).2
  | RegOp.readRegisterBuf reg buf length => (readRegisterBuf env a w reg buf length).2.2
  | RegOp.writeRegisterBuf reg buf length => (writeRegisterBuf env a w reg buf length).2.2
  | RegOp.setRegisterBit r b => (setRegisterBit env a w r b).2
  | RegOp.clrRegisterBit r b => (clrRegisterBit env a w r b).2
  | RegOp.getRegisterBit r b => (getRegisterBit env a w r b).2
  | RegOp.readRegisterH8L4 h l => (readRegisterH8L4 env a w h l).2
  | RegOp.readRegisterH8L5 h l => (readRegisterH8L5 env a w h l).2
  | RegOp.readRegisterH6L8 h l => (readRegisterH6L8 env a w h l).2
  | RegOp.readRegisterH5L8 h l => (readRegisterH5L8 env a w h l).2

/-- The world after a sequence of register operations, first to last. -/
def runOps {σ β : Type} (env : Env β) (a : XPowersCommon σ) (w : World σ β) :
    List RegOp → World σ β
  | [] => w
  | op :: ops => runOps env a (runOp env a w op) ops

/-- The platform calls of a trace: the uses of the built-in transport. -/
def sysCalls : List Event → List SysCall
  | [] => []
  | Event.sys c :: t => c :: sysCalls t
  | _ :: t => sysCalls t

/-- The step from `w` to `w1` made no use of the built-in transport: the
platform state is the same and no platform call was added to the trace. -/
def NoSysUse {σ β : Type} (w w1 : World σ β) : Prop :=
  w1.sys = w.sys ∧ sysCalls w1.trace = sysCalls w.trace

/-! ## Re-running only the chip-init step -/

/-- The result `r` of a bind called on accessor `a` in world `w` is that of
running the variant's `initImpl` and nothing else: the members are those of `a`,
the value returned is `initImpl`'s, the user and platform state are as
`initImpl` left them, and the one call logged is that of `initImpl`. -/
def OnlyInitImpl {σ β : Type} (initImpl : InitImpl σ β) (a : XPowersCommon σ)
    (w : World σ β) (r : Bool × XPowersCommon σ × World σ β) : Prop :=
  r.1 = (initImpl a w.user w.sys).1 ∧
    r.2.1 = a ∧
    r.2.2.user = (initImpl a w.user w.sys).2.1 ∧
    r.2.2.sys = (initImpl a w.user w.sys).2.2 ∧
    r.2.2.trace = w.trace ++ [Event.initImpl]

/-- A chip-init step that fails and touches nothing. -/
def failingInit : InitImpl RegFile Unit := fun _ u s => (false, u, s)

/-- A chip-init step that succeeds and touches nothing. -/
def passingInit : InitImpl RegFile Unit := fun _ u s => (true, u, s)

/-- A freshly constructed accessor (with `__i2c_num` starting as 0). -/
def freshAccessor : XPowersCommon RegFile := XPowersCommon.init RegFile 0

/-! ## More test data -/

/-- A world whose register 1 holds `h`, whose register 2 holds `l` and whose
other registers hold 0, with nothing called yet. -/
def regWorld (h l : Nat) : World RegFile Unit :=
  { user := fun k => if k = 1 then h else if k = 2 then l else 0, sys := (), trace := [] }

/-- A read callback that reports the status -1 and leaves the buffer alone. -/
def sentinelRead : iic_fptr_t RegFile :=
  fun s _devAddr _regAddr data _len => (-1, data, s)

/-- The accessor `regFileAccessor` with `sentinelRead` bound as its read callback. -/
def sentinelReadAccessor : XPowersCommon RegFile :=
  { regFileAccessor with thisReadRegCallback := some sentinelRead }

/-- The platform state after a list of platform calls, first to last. -/
def sysRun {β : Type} (env : Env β) (s : β) : List SysCall → β
  | [] => s
  | c :: cs => sysRun env (env.sys s c).2 cs

/-- An ESP-IDF platform on which `malloc` returns the null pointer and every
other call answers status 0. -/
def noMemEnv : Env Unit :=
  { platform := Platform.espIdf, sys := fun b _ => ({ status := 0, data := [] }, b) }

/-- An ESP-IDF platform on which `malloc` returns a non-null pointer and every
other call answers status 0. -/
def espEnv : Env Unit :=
  { platform := Platform.espIdf
    sys := fun b c =>
      match c with
      | SysCall.malloc _ => ({ status := 1, data := [] }, b)
      | _ => ({ status := 0, data := [] }, b) }

/-- An accessor bound to the built-in transport at address 0x34: no callbacks, a
bus handle, port 1 and pins. -/
def builtinAccessor : XPowersCommon RegFile :=
  { __has_init := true
    __wire := some 0
    __i2c_num := 1
    __sda := 21
    __scl := 22
    __addr := 0x34
    thisReadRegCallback := none
    thisWriteRegCallback := none }

/-! ## Sequences of binds and register operations -/

/-- A call of one of the public `begin` overloads, with its arguments. -/
inductive BindCall (σ : Type) where
  | callback (addr : Nat) (readRegCallback writeRegCallback : Option (iic_fptr_t σ))
  | wire (rp2040OrStm32 : Bool) (wire : Nat) (addr : Nat) (sda scl : Int)
  | port (port_num : Int) (addr : Nat) (sda scl : Int)

/-- The address argument of a bind call. -/
def BindCall.addr {σ : Type} : BindCall σ → Nat
  | BindCall.callback addr _ _ => addr
  | BindCall.wire _ _ addr _ _ => addr
  | BindCall.port _ addr _ _ => addr

/-- The result of a bind call: the value returned, the accessor and the world
afterwards. -/
def runBind {σ β : Type} (env : Env β) (initImpl : InitImpl σ β) (a : XPowersCommon σ)
    (w : World σ β) : BindCall σ → Bool × XPowersCommon σ × World σ β
  | BindCall.callback addr rd wr => beginCallback initImpl a w addr rd wr
  | BindCall.wire f wire addr sda scl => beginWire env f initImpl a w wire addr sda scl
  | BindCall.port port_num addr sda scl => beginPort env initImpl a w port_num addr sda scl

/-- One thing a user of the accessor can do: a public bind, the protected
`begin()`, or a register operation. -/
inductive Step (σ : Type) where
  | bind (b : BindCall σ)
  | beginProtected
  | op (o : RegOp)

/-- The accessor and the world after one step. -/
def runStep {σ β : Type} (env : Env β) (initImpl : InitImpl σ β)
    (s : XPowersCommon σ × World σ β) : Step σ → XPowersCommon σ × World σ β
  | Step.bind b => (runBind env initImpl s.1 s.2 b).2
  | Step.beginProtected => (beginProtected env initImpl s.1 s.2).2
  | Step.op o => (s.1, runOp env s.1 s.2 o)

/-- The accessor and the world after a sequence of steps, first to last. -/
def runSteps {σ β : Type} (env : Env β) (initImpl : InitImpl σ β)
    (s : XPowersCommon σ × World σ β) : List (Step σ) → XPowersCommon σ × World σ β
  | [] => s
  | st :: sts => runSteps env initImpl (runStep env initImpl s st) sts

/-- The device address a logged call hands to the transport, if it hands one. -/
def Event.devAddr : Event → Option Nat
  | Event.readCallback devAddr _ _ _ => some devAddr
  | Event.writeCallback devAddr _ _ _ => some devAddr
  | Event.sys (SysCall.wireBeginTransmission _ addr) => some addr
  | Event.sys (SysCall.wireRequestFrom _ addr _) => some addr
  | Event.sys (SysCall.i2c_master_write_read_device _ addr _ _ _ _) => some addr
  | Event.sys (SysCall.i2c_master_write_to_device _ addr _ _) => some addr
  | _ => none

/-- From `w` to `w1` the trace has only grown, and every call added that hands a
device address to the transport hands `addr`. -/
def UsesAddr {σ β : Type} (addr : Nat) (w w1 : World σ β) : Prop :=
  ∃ l : List Event, w1.trace = w.trace ++ l ∧
    ∀ e ∈ l, e.devAddr = none ∨ e.devAddr = some addr

/-- A chip-init step that succeeds exactly when register 3 holds 0x4A, and
touches nothing. -/
def chipIdInit : InitImpl RegFile Unit := fun _ u s => (decide (u 3 = 0x4A), u, s)

/-- A first callback bind with address 0x34 on a fresh accessor over registers
holding 0, where `chipIdInit` fails. -/
def retryFirst : Bool × XPowersCommon RegFile × World RegFile Unit :=
  beginCallback chipIdInit freshAccessor zeroWorld 0x34 (some regFileRead) (some regFileWrite)

/-- After `retryFirst`, register 3 is written with 0x4A and a second callback
bind is made, with address 0x35; `chipIdInit` now succeeds. -/
def retrySecond : Bool × XPowersCommon RegFile × World RegFile Unit :=
  beginCallback chipIdInit retryFirst.2.1
    (writeRegister (quietEnv Platform.espIdf) retryFirst.2.1 retryFirst.2.2 3 0x4A).2
    0x35 (some regFileRead) (some regFileWrite)

/-! ## Theorems -/

/-- With a read callback bound, the multi-byte read is the callback's call. -/
theorem readRegisterBuf_callback {σ β : Type} (env : Env β) (a : XPowersCommon σ)
    (w : World σ β) (cb : iic_fptr_t σ) (h : a.thisReadRegCallback = some cb)
    (reg : Nat) (buf : List Nat) (length : Nat) :
    readRegisterBuf env a w reg buf length = callReadCallback cb a w reg buf length := by
  simp [readRegisterBuf, h]

/-- With a write callback bound, the multi-byte write is the callback's call. -/
theorem writeRegisterBuf_callback {σ β : Type} (env : Env β) (a : XPowersCommon σ)
    (w : World σ β) (cb : iic_fptr_t σ) (h : a.thisWriteRegCallback = some cb)
    (reg : Nat) (buf : List Nat) (length : Nat) :
    writeRegisterBuf env a w reg buf length = callWriteCallback cb a w reg buf length := by
  simp [writeRegisterBuf, h]

/-- The single-byte read over the register file: the register's content as a byte. -/
theorem readRegister_regFile {β : Type} (env : Env β) (a : XPowersCommon RegFile)
    (w : World RegFile β) (hrd : a.thisReadRegCallback = some regFileRead) (reg : Nat) :
    readRegister env a w reg =
      (((w.user (reg % 256) % 256 : Nat) : Int),
        { w with trace := w.trace ++ [Event.readCallback a.__addr reg [0] 1] }) := by
  simp [readRegister, readRegisterBuf_callback env a w regFileRead hrd, callReadCallback,
    regFileRead, List.range_succ]

/-- The single-byte write over the register file: the register is overwritten. -/
theorem writeRegister_regFile {β : Type} (env : Env β) (a : XPowersCommon RegFile)
    (w : World RegFile β) (hwr : a.thisWriteRegCallback = some regFileWrite) (reg val : Nat) :
    writeRegister env a w reg val =
      (0, { w with user := fun k => if k = reg % 256 then val else w.user k,
                   trace := w.trace ++ [Event.writeCallback a.__addr reg [val] 1] }) := by
  simp [writeRegister, writeRegisterBuf_callback env a w regFileWrite hwr, callWriteCallback,
    regFileWrite, storeBytes]

/-- C1: over the register-file callback transport, `writeRegister(r, v)` succeeds
and a following `readRegister(r)` returns exactly `v`, for every register and
every byte `v`. -/
theorem writeRegister_then_readRegister {β : Type} (env : Env β)
    (a : XPowersCommon RegFile) (w : World RegFile β) (r v : Nat)
    (hrd : a.thisReadRegCallback = some regFileRead)
    (hwr : a.thisWriteRegCallback = some regFileWrite)
    (hr : r < 256) (hv : v < 256) :
    (writeRegister env a w r v).1 = 0 ∧
      (readRegister env a (writeRegister env a w r v).2 r).1 = (v : Int) := by
  rw [writeRegister_regFile env a w hwr, readRegister_regFile env a _ hrd]
  simp [Nat.mod_eq_of_lt hr, Nat.mod_eq_of_lt hv]

/-- C1, at register 0x10 and byte 0xAB on the accessor `regFileAccessor`. -/
theorem writeRegister_then_readRegister_witness :
    (writeRegister (quietEnv Platform.espIdf) regFileAccessor zeroWorld 0x10 0xAB).1 = 0 ∧
      (readRegister (quietEnv Platform.espIdf) regFileAccessor
        (writeRegister (quietEnv Platform.espIdf) regFileAccessor zeroWorld 0x10 0xAB).2
        0x10).1 = ((0xAB : Nat) : Int) :=
  writeRegister_then_readRegister (quietEnv Platform.espIdf) regFileAccessor zeroWorld
    0x10 0xAB rfl rfl (by decide) (by decide)

/-- C2, as stated, fails: a read callback that reports status 1 (a failure under
the convention that 0 is success) makes the multi-byte read of length 1 return
1, and the single-byte `readRegister` then returns 0, not -1. -/
theorem readRegister_nonzero_status_not_sentinel :
    (readRegisterBuf (quietEnv Platform.espIdf) failingReadAccessor zeroWorld 0x10 [0] 1).1 = 1 ∧
      (readRegister (quietEnv Platform.espIdf) failingReadAccessor zeroWorld 0x10).1 = 0 := by
  decide

/-- C2, amended: the single-byte `readRegister` returns -1 exactly when the
multi-byte read of length 1 (on a buffer holding 0) returns status -1; for every
other status it returns the byte left in the buffer, an integer in 0..255. -/
theorem readRegister_sentinel {σ β : Type} (env : Env β) (a : XPowersCommon σ)
    (w : World σ β) (reg : Nat) :
    ((readRegisterBuf env a w reg [0] 1).1 = -1 ∧ (readRegister env a w reg).1 = -1) ∨
      ((readRegisterBuf env a w reg [0] 1).1 ≠ -1 ∧
        (readRegister env a w reg).1 =
          (((readRegisterBuf env a w reg [0] 1).2.1.headD 0 % 256 : Nat) : Int) ∧
        0 ≤ (readRegister env a w reg).1 ∧ (readRegister env a w reg).1 ≤ 255) := by
  by_cases h : (readRegisterBuf env a w reg [0] 1).1 = -1
  · left
    simp [readRegister, h]
  · right
    refine ⟨h, ?_, ?_, ?_⟩
    · simp [readRegister, h]
    · simp only [readRegister, h, if_false]
      exact Int.ofNat_nonneg _
    · simp only [readRegister, h, if_false]
      have : (readRegisterBuf env a w reg [0] 1).2.1.headD 0 % 256 < 256 :=
        Nat.mod_lt _ (by decide)
      omega

/-- With no read callback bound, the multi-byte read reports 0 or -1 and nothing
else. -/
theorem readRegisterBuf_builtin_status {σ β : Type} (env : Env β) (a : XPowersCommon σ)
    (w : World σ β) (h : a.thisReadRegCallback = none) (reg : Nat) (buf : List Nat)
    (length : Nat) :
    (readRegisterBuf env a w reg buf length).1 = 0 ∨
      (readRegisterBuf env a w reg buf length).1 = -1 := by
  unfold readRegisterBuf
  rw [h]
  cases env.platform with
  | arduino f =>
    cases a.__wire with
    | none => simp
    | some wire =>
      simp only
      split
      · simp
      · split <;> simp
  | espIdf =>
    simp only
    split <;> simp

/-- The conversion to `unsigned long long` keeps a byte. -/
theorem toULL_byte (n : Nat) (h : n < 256) : toULL (n : Int) = n := by
  unfold toULL
  have h1 : ((n : Int) % 2 ^ 64) = n := by
    apply Int.emod_eq_of_lt <;> omega
  rw [h1]
  simp

/-- A byte is not the failure sentinel. -/
theorem byte_ne_sentinel (n : Nat) : ((n : Int) = -1) = False := by
  simp only [eq_iff_iff, iff_false]
  omega

set_option maxRecDepth 100000 in
/-- Setting bit `b` of a byte and narrowing to a byte leaves bit `b` set. -/
theorem setBit_arith :
    ∀ x < 256, ∀ b < 8, (x ||| _BV b) % 256 &&& _BV b ≠ 0 := by
  decide

set_option maxRecDepth 100000 in
/-- Clearing bit `b` of a byte and narrowing to a byte leaves bit `b` clear. -/
theorem clrBit_arith :
    ∀ x < 256, ∀ b < 8, (x &&& notULL (_BV b)) % 256 &&& _BV b = 0 := by
  decide

/-- C3: over the register-file callback transport, whatever the registers held
before, `setRegisterBit(r, b)` with `b` in 0..7 returns true and a following
`getRegisterBit(r, b)` returns true. -/
theorem setRegisterBit_then_getRegisterBit {β : Type} (env : Env β)
    (a : XPowersCommon RegFile) (w : World RegFile β) (r b : Nat)
    (hrd : a.thisReadRegCallback = some regFileRead)
    (hwr : a.thisWriteRegCallback = some regFileWrite)
    (hr : r < 256) (hb : b < 8) :
    (setRegisterBit env a w r b).1 = true ∧
      (getRegisterBit env a (setRegisterBit env a w r b).2 r b).1 = true := by
  have hx : w.user r % 256 < 256 := Nat.mod_lt _ (by decide)
  have key := setBit_arith (w.user r % 256) hx b hb
  simp only [setRegisterBit, getRegisterBit, readRegister_regFile env a _ hrd,
    writeRegister_regFile env a _ hwr, byte_ne_sentinel, if_false, Nat.mod_eq_of_lt hr,
    toULL_byte _ hx, if_true]
  rw [toULL_byte _ (Nat.mod_lt _ (by decide))]
  simpa using key

/-- C3, at register 0x10 and bit 5 on the accessor `regFileAccessor`. -/
theorem setRegisterBit_then_getRegisterBit_witness :
    (setRegisterBit (quietEnv Platform.espIdf) regFileAccessor zeroWorld 0x10 5).1 = true ∧
      (getRegisterBit (quietEnv Platform.espIdf) regFileAccessor
        (setRegisterBit (quietEnv Platform.espIdf) regFileAccessor zeroWorld 0x10 5).2
        0x10 5).1 = true :=
  setRegisterBit_then_getRegisterBit (quietEnv Platform.espIdf) regFileAccessor zeroWorld
    0x10 5 rfl rfl (by decide) (by decide)

/-- C4: over the register-file callback transport, whatever the registers held
before, `clrRegisterBit(r, b)` with `b` in 0..7 followed by `getRegisterBit(r, b)`
returns false (and the clearing itself reports success). -/
theorem clrRegisterBit_then_getRegisterBit {β : Type} (env : Env β)
    (a : XPowersCommon RegFile) (w : World RegFile β) (r b : Nat)
    (hrd : a.thisReadRegCallback = some regFileRead)
    (hwr : a.thisWriteRegCallback = some regFileWrite)
    (hr : r < 256) (hb : b < 8) :
    (clrRegisterBit env a w r b).1 = true ∧
      (getRegisterBit env a (clrRegisterBit env a w r b).2 r b).1 = false := by
  have hx : w.user r % 256 < 256 := Nat.mod_lt _ (by decide)
  have key := clrBit_arith (w.user r % 256) hx b hb
  simp only [clrRegisterBit, getRegisterBit, readRegister_regFile env a _ hrd,
    writeRegister_regFile env a _ hwr, byte_ne_sentinel, if_false, Nat.mod_eq_of_lt hr,
    toULL_byte _ hx, if_true]
  rw [toULL_byte _ (Nat.mod_lt _ (by decide))]
  simpa using key

/-- C4, at register 0x10 and bit 5 of a register file holding 0xFF everywhere. -/
theorem clrRegisterBit_then_getRegisterBit_witness :
    (clrRegisterBit (quietEnv Platform.espIdf) regFileAccessor
        { zeroWorld with user := fun _ => 0xFF } 0x10 5).1 = true ∧
      (getRegisterBit (quietEnv Platform.espIdf) regFileAccessor
        (clrRegisterBit (quietEnv Platform.espIdf) regFileAccessor
          { zeroWorld with user := fun _ => 0xFF } 0x10 5).2
        0x10 5).1 = false :=
  clrRegisterBit_then_getRegisterBit (quietEnv Platform.espIdf) regFileAccessor
    { zeroWorld with user := fun _ => 0xFF } 0x10 5 rfl rfl (by decide) (by decide)

/-- C5: with a read callback bound, the multi-byte `readRegister(reg, buf, length)`
makes exactly one call, the callback with the bound address and the same `reg`,
`buf` and `length`, and returns its status (and leaves its buffer and user state)
unchanged, without touching the platform; likewise the multi-byte `writeRegister`
with a write callback bound. -/
theorem multiByte_callback_verbatim {σ β : Type} (env : Env β) (a : XPowersCommon σ)
    (w : World σ β) (reg : Nat) (buf : List Nat) (length : Nat) :
    (∀ rd : iic_fptr_t σ, a.thisReadRegCallback = some rd →
      (readRegisterBuf env a w reg buf length).1 = (rd w.user a.__addr reg buf length).1 ∧
      (readRegisterBuf env a w reg buf length).2.1 = (rd w.user a.__addr reg buf length).2.1 ∧
      (readRegisterBuf env a w reg buf length).2.2.user
        = (rd w.user a.__addr reg buf length).2.2 ∧
      (readRegisterBuf env a w reg buf length).2.2.sys = w.sys ∧
      (readRegisterBuf env a w reg buf length).2.2.trace
        = w.trace ++ [Event.readCallback a.__addr reg buf length]) ∧
    (∀ wr : iic_fptr_t σ, a.thisWriteRegCallback = some wr →
      (writeRegisterBuf env a w reg buf length).1 = (wr w.user a.__addr reg buf length).1 ∧
      (writeRegisterBuf env a w reg buf length).2.1 = (wr w.user a.__addr reg buf length).2.1 ∧
      (writeRegisterBuf env a w reg buf length).2.2.user
        = (wr w.user a.__addr reg buf length).2.2 ∧
      (writeRegisterBuf env a w reg buf length).2.2.sys = w.sys ∧
      (writeRegisterBuf env a w reg buf length).2.2.trace
        = w.trace ++ [Event.writeCallback a.__addr reg buf length]) := by
  constructor
  · intro rd h
    simp [readRegisterBuf_callback env a w rd h, callReadCallback]
  · intro wr h
    simp [writeRegisterBuf_callback env a w wr h, callWriteCallback]

/-- C5, for a three-byte read at register 0x20 through `failingRead`, whose
status 1 comes back as it is, with the one call logged. -/
theorem multiByte_callback_verbatim_witness :
    (readRegisterBuf (quietEnv Platform.espIdf) failingReadAccessor zeroWorld
        0x20 [7, 8, 9] 3).1 = 1 ∧
      (readRegisterBuf (quietEnv Platform.espIdf) failingReadAccessor zeroWorld
        0x20 [7, 8, 9] 3).2.2.trace = [Event.readCallback 0x34 0x20 [7, 8, 9] 3] := by
  have h := (multiByte_callback_verbatim (quietEnv Platform.espIdf) failingReadAccessor
    zeroWorld 0x20 [7, 8, 9] 3).1 failingRead rfl
  exact ⟨h.1, h.2.2.2.2⟩

/-- The platform calls of a concatenation. -/
theorem sysCalls_append (t u : List Event) : sysCalls (t ++ u) = sysCalls t ++ sysCalls u := by
  induction t with
  | nil => rfl
  | cons e t ih => cases e <;> simp [sysCalls, ih]

/-- The relation `NoSysUse` holds of a world and itself. -/
theorem NoSysUse.rfl {σ β : Type} (w : World σ β) : NoSysUse w w := ⟨Eq.refl _, Eq.refl _⟩

/-- The relation `NoSysUse` composes. -/
theorem NoSysUse.trans {σ β : Type} {w w1 w2 : World σ β} (h1 : NoSysUse w w1)
    (h2 : NoSysUse w1 w2) : NoSysUse w w2 :=
  ⟨h2.1.trans h1.1, h2.2.trans h1.2⟩

/-- A multi-byte read through a bound callback makes no use of the platform. -/
theorem readRegisterBuf_noSysUse {σ β : Type} (env : Env β) (a : XPowersCommon σ)
    (rd : iic_fptr_t σ) (hrd : a.thisReadRegCallback = some rd) (w : World σ β)
    (reg : Nat) (buf : List Nat) (length : Nat) :
    NoSysUse w (readRegisterBuf env a w reg buf length).2.2 := by
  simp [NoSysUse, readRegisterBuf_callback env a w rd hrd, callReadCallback, sysCalls_append,
    sysCalls]

/-- A multi-byte write through a bound callback makes no use of the platform. -/
theorem writeRegisterBuf_noSysUse {σ β : Type} (env : Env β) (a : XPowersCommon σ)
    (wr : iic_fptr_t σ) (hwr : a.thisWriteRegCallback = some wr) (w : World σ β)
    (reg : Nat) (buf : List Nat) (length : Nat) :
    NoSysUse w (writeRegisterBuf env a w reg buf length).2.2 := by
  simp [NoSysUse, writeRegisterBuf_callback env a w wr hwr, callWriteCallback, sysCalls_append,
    sysCalls]

/-- A single-byte read through a bound callback makes no use of the platform. -/
theorem readRegister_noSysUse {σ β : Type} (env : Env β) (a : XPowersCommon σ)
    (rd : iic_fptr_t σ) (hrd : a.thisReadRegCallback = some rd) (w : World σ β) (reg : Nat) :
    NoSysUse w (readRegister env a w reg).2 :=
  readRegisterBuf_noSysUse env a rd hrd w reg [0] 1

/-- A single-byte write through a bound callback makes no use of the platform. -/
theorem writeRegister_noSysUse {σ β : Type} (env : Env β) (a : XPowersCommon σ)
    (wr : iic_fptr_t σ) (hwr : a.thisWriteRegCallback = some wr) (w : World σ β)
    (reg val : Nat) :
    NoSysUse w (writeRegister env a w reg val).2 :=
  writeRegisterBuf_noSysUse env a wr hwr w reg [val] 1

/-- With both callbacks bound, no single register operation uses the platform. -/
theorem runOp_noSysUse {σ β : Type} (env : Env β) (a : XPowersCommon σ)
    (rd wr : iic_fptr_t σ) (hrd : a.thisReadRegCallback = some rd)
    (hwr : a.thisWriteRegCallback = some wr) (w : World σ β) (op : RegOp) :
    NoSysUse w (runOp env a w op) := by
  have hR := readRegister_noSysUse env a rd hrd
  have hW := writeRegister_noSysUse env a wr hwr
  cases op with
  | readRegister reg => exact hR w reg
  | writeRegister reg val => exact hW w reg val
  | readRegisterBuf reg buf length => exact readRegisterBuf_noSysUse env a rd hrd w reg buf length
  | writeRegisterBuf reg buf length =>
    exact writeRegisterBuf_noSysUse env a wr hwr w reg buf length
  | setRegisterBit r b =>
    simp only [runOp, setRegisterBit]
    split
    · exact hR w r
    · exact (hR w r).trans (hW _ r _)
  | clrRegisterBit r b =>
    simp only [runOp, clrRegisterBit]
    split
    · exact hR w r
    · exact (hR w r).trans (hW _ r _)
  | getRegisterBit r b =>
    simp only [runOp, getRegisterBit]
    split
    · exact hR w r
    · exact hR w r
  | readRegisterH8L4 h l =>
    simp only [runOp, readRegisterH8L4]
    split <;> exact (hR w h).trans (hR _ l)
  | readRegisterH8L5 h l =>
    simp only [runOp, readRegisterH8L5]
    split <;> exact (hR w h).trans (hR _ l)
  | readRegisterH6L8 h l =>
    simp only [runOp, readRegisterH6L8]
    split <;> exact (hR w h).trans (hR _ l)
  | readRegisterH5L8 h l =>
    simp only [runOp, readRegisterH5L8]
    split <;> exact (hR w h).trans (hR _ l)

/-- C6: on an accessor holding non-null read and write callbacks, whatever bus
handle, port and pins it also holds, no sequence of register operations (single-
and multi-byte reads and writes, the three bit helpers, the four field readers)
makes any call to the platform: the platform state stays as it was and the trace
gains no platform call. -/
theorem callbacks_never_use_builtin {σ β : Type} (env : Env β) (a : XPowersCommon σ)
    (rd wr : iic_fptr_t σ) (hrd : a.thisReadRegCallback = some rd)
    (hwr : a.thisWriteRegCallback = some wr) (ops : List RegOp) (w : World σ β) :
    (runOps env a w ops).sys = w.sys ∧
      sysCalls (runOps env a w ops).trace = sysCalls w.trace := by
  induction ops generalizing w with
  | nil => exact ⟨rfl, rfl⟩
  | cons op ops ih =>
    exact (runOp_noSysUse env a rd wr hrd hwr w op).trans (ih (runOp env a w op))

/-- C6, on `regFileAccessor`, which also holds a bus handle, a port and pins. -/
theorem callbacks_never_use_builtin_witness :
    (runOps (quietEnv (Platform.arduino false)) regFileAccessor zeroWorld
        [RegOp.setRegisterBit 0x10 5, RegOp.readRegisterH6L8 1 2,
          RegOp.writeRegisterBuf 3 [1, 2] 2]).sys = () ∧
      sysCalls (runOps (quietEnv (Platform.arduino false)) regFileAccessor zeroWorld
        [RegOp.setRegisterBit 0x10 5, RegOp.readRegisterH6L8 1 2,
          RegOp.writeRegisterBuf 3 [1, 2] 2]).trace = [] :=
  callbacks_never_use_builtin (quietEnv (Platform.arduino false)) regFileAccessor
    regFileRead regFileWrite rfl rfl _ zeroWorld

/-- Storing the port number an accessor already holds changes nothing. -/
theorem set_i2c_num_same {σ : Type} (x : XPowersCommon σ) (p : Int) (h : x.__i2c_num = p) :
    ({ x with __i2c_num := p } : XPowersCommon σ) = x := by
  cases x
  simp only [XPowersCommon.mk.injEq, true_and, and_true] at h ⊢
  exact h.symm

/-- On an initialized accessor the callback bind only runs `initImpl`. -/
theorem beginCallback_initialized {σ β : Type} (initImpl : InitImpl σ β)
    (a : XPowersCommon σ) (w : World σ β) (h : a.__has_init = true) (addr : Nat)
    (rd wr : Option (iic_fptr_t σ)) :
    OnlyInitImpl initImpl a w (beginCallback initImpl a w addr rd wr) := by
  simp [OnlyInitImpl, beginCallback, h, callInitImpl]

/-- On an initialized accessor the `TwoWire` bind only runs `initImpl`. -/
theorem beginWire_initialized {σ β : Type} (env : Env β) (f : Bool) (initImpl : InitImpl σ β)
    (a : XPowersCommon σ) (w : World σ β) (h : a.__has_init = true) (wire addr : Nat)
    (sda scl : Int) :
    OnlyInitImpl initImpl a w (beginWire env f initImpl a w wire addr sda scl) := by
  simp [OnlyInitImpl, beginWire, h, callInitImpl]

/-- On an initialized accessor the port bind stores the port number and then
only runs `initImpl`. -/
theorem beginPort_initialized {σ β : Type} (env : Env β) (initImpl : InitImpl σ β)
    (a : XPowersCommon σ) (w : World σ β) (h : a.__has_init = true) (port_num : Int)
    (addr : Nat) (sda scl : Int) :
    OnlyInitImpl initImpl { a with __i2c_num := port_num } w
      (beginPort env initImpl a w port_num addr sda scl) := by
  simp [OnlyInitImpl, beginPort, h, callInitImpl]

/-- After a callback bind the accessor is initialized. -/
theorem beginCallback_has_init {σ β : Type} (initImpl : InitImpl σ β)
    (a : XPowersCommon σ) (w : World σ β) (addr : Nat) (rd wr : Option (iic_fptr_t σ)) :
    (beginCallback initImpl a w addr rd wr).2.1.__has_init = true := by
  by_cases h : a.__has_init = true <;> simp [beginCallback, h]

/-- After a `TwoWire` bind the accessor is initialized. -/
theorem beginWire_has_init {σ β : Type} (env : Env β) (f : Bool) (initImpl : InitImpl σ β)
    (a : XPowersCommon σ) (w : World σ β) (wire addr : Nat) (sda scl : Int) :
    (beginWire env f initImpl a w wire addr sda scl).2.1.__has_init = true := by
  by_cases h : a.__has_init = true <;> simp [beginWire, h]

/-- After a port bind the accessor is initialized if it was before or if the
bind returned true; in both cases it holds the port number given. -/
theorem beginPort_has_init {σ β : Type} (env : Env β) (initImpl : InitImpl σ β)
    (a : XPowersCommon σ) (w : World σ β) (port_num : Int) (addr : Nat) (sda scl : Int)
    (h : a.__has_init = true ∨ (beginPort env initImpl a w port_num addr sda scl).1 = true) :
    (beginPort env initImpl a w port_num addr sda scl).2.1.__has_init = true ∧
      (beginPort env initImpl a w port_num addr sda scl).2.1.__i2c_num = port_num := by
  by_cases h0 : a.__has_init = true
  · simp [beginPort, h0]
  · rcases h with h | h
    · exact absurd h h0
    · simp only [beginPort, h0] at h ⊢
      simpa using h

/-- C7, as stated, fails for the ESP-IDF bind: when the first call's `initImpl`
returns false, a second call with the same arguments configures and installs the
bus driver again before running `initImpl`. -/
theorem beginPort_twice_repeats_setup :
    (beginPort (quietEnv Platform.espIdf) failingInit freshAccessor zeroWorld
        0 0x34 21 22).2.2.trace
      = [Event.sys (SysCall.i2c_param_config 0 21 22 400000),
          Event.sys (SysCall.i2c_driver_install 0 0 0), Event.initImpl] ∧
    (beginPort (quietEnv Platform.espIdf) failingInit
        (beginPort (quietEnv Platform.espIdf) failingInit freshAccessor zeroWorld
          0 0x34 21 22).2.1
        (beginPort (quietEnv Platform.espIdf) failingInit freshAccessor zeroWorld
          0 0x34 21 22).2.2
        0 0x34 21 22).2.2.trace
      = [Event.sys (SysCall.i2c_param_config 0 21 22 400000),
          Event.sys (SysCall.i2c_driver_install 0 0 0), Event.initImpl,
          Event.sys (SysCall.i2c_param_config 0 21 22 400000),
          Event.sys (SysCall.i2c_driver_install 0 0 0), Event.initImpl] := by
  decide

/-- C7, amended: a second bind with the same arguments makes no platform call,
changes no member, calls `initImpl` once and returns its result, for the
callback bind and the `TwoWire` bind whatever the first call's `initImpl`
returned, and for the ESP-IDF port bind when the accessor was initialized before
the first call or the first call returned true. -/
theorem begin_twice_only_initImpl {σ β : Type} (env : Env β) (initImpl : InitImpl σ β)
    (a : XPowersCommon σ) (w : World σ β) :
    (∀ (addr : Nat) (rd wr : Option (iic_fptr_t σ)),
      OnlyInitImpl initImpl (beginCallback initImpl a w addr rd wr).2.1
        (beginCallback initImpl a w addr rd wr).2.2
        (beginCallback initImpl (beginCallback initImpl a w addr rd wr).2.1
          (beginCallback initImpl a w addr rd wr).2.2 addr rd wr)) ∧
    (∀ (f : Bool) (wire addr : Nat) (sda scl : Int),
      OnlyInitImpl initImpl (beginWire env f initImpl a w wire addr sda scl).2.1
        (beginWire env f initImpl a w wire addr sda scl).2.2
        (beginWire env f initImpl (beginWire env f initImpl a w wire addr sda scl).2.1
          (beginWire env f initImpl a w wire addr sda scl).2.2 wire addr sda scl)) ∧
    (∀ (port_num : Int) (addr : Nat) (sda scl : Int),
      (a.__has_init = true ∨ (beginPort env initImpl a w port_num addr sda scl).1 = true) →
      OnlyInitImpl initImpl (beginPort env initImpl a w port_num addr sda scl).2.1
        (beginPort env initImpl a w port_num addr sda scl).2.2
        (beginPort env initImpl (beginPort env initImpl a w port_num addr sda scl).2.1
          (beginPort env initImpl a w port_num addr sda scl).2.2 port_num addr sda scl)) := by
  refine ⟨?_, ?_, ?_⟩
  · intro addr rd wr
    exact beginCallback_initialized initImpl _ _ (beginCallback_has_init initImpl a w addr rd wr)
      addr rd wr
  · intro f wire addr sda scl
    exact beginWire_initialized env f initImpl _ _
      (beginWire_has_init env f initImpl a w wire addr sda scl) wire addr sda scl
  · intro port_num addr sda scl h
    have h1 := beginPort_has_init env initImpl a w port_num addr sda scl h
    have h2 := beginPort_initialized env initImpl _
      (beginPort env initImpl a w port_num addr sda scl).2.2 h1.1 port_num addr sda scl
    rw [set_i2c_num_same _ port_num h1.2] at h2
    exact h2

/-- C7, for the ESP-IDF port bind on a fresh accessor whose `initImpl` succeeds. -/
theorem begin_twice_only_initImpl_witness :
    OnlyInitImpl passingInit
      (beginPort (quietEnv Platform.espIdf) passingInit freshAccessor zeroWorld
        0 0x34 21 22).2.1
      (beginPort (quietEnv Platform.espIdf) passingInit freshAccessor zeroWorld
        0 0x34 21 22).2.2
      (beginPort (quietEnv Platform.espIdf) passingInit
        (beginPort (quietEnv Platform.espIdf) passingInit freshAccessor zeroWorld
          0 0x34 21 22).2.1
        (beginPort (quietEnv Platform.espIdf) passingInit freshAccessor zeroWorld
          0 0x34 21 22).2.2 0 0x34 21 22) :=
  (begin_twice_only_initImpl (quietEnv Platform.espIdf) passingInit freshAccessor
    zeroWorld).2.2 0 0x34 21 22 (Or.inr rfl)

/-- C8: the claim fails on the ESP-IDF bind.  On the initialized accessor
`regFileAccessor`, which holds port 0, a bind with port 1, address 0x35 and pins
4, 5 runs only `initImpl` and keeps address 0x34 and pins 21, 22, yet leaves
port 1 stored.  On the initialized accessor `builtinAccessor` (port 1, no
callbacks) a bind with port 2 makes no bus set-up call, and the next write goes
to port 2 with the old address 0x34.  The `TwoWire` bind on `regFileAccessor`
with another handle keeps the handle it held. -/
theorem beginPort_initialized_changes_port :
    regFileAccessor.__has_init = true ∧ regFileAccessor.__i2c_num = 0 ∧
      (beginPort (quietEnv Platform.espIdf) passingInit regFileAccessor zeroWorld
        1 0x35 4 5).2.1.__i2c_num = 1 ∧
      (beginPort (quietEnv Platform.espIdf) passingInit regFileAccessor zeroWorld
        1 0x35 4 5).2.1.__addr = 0x34 ∧
      (beginPort (quietEnv Platform.espIdf) passingInit regFileAccessor zeroWorld
        1 0x35 4 5).2.1.__sda = 21 ∧
      (beginPort (quietEnv Platform.espIdf) passingInit regFileAccessor zeroWorld
        1 0x35 4 5).2.1.__scl = 22 ∧
      (beginPort (quietEnv Platform.espIdf) passingInit regFileAccessor zeroWorld
        1 0x35 4 5).2.2.trace = [Event.initImpl] ∧
      builtinAccessor.__has_init = true ∧ builtinAccessor.__i2c_num = 1 ∧
      (writeRegisterBuf espEnv
        (beginPort espEnv passingInit builtinAccessor zeroWorld 2 0x35 4 5).2.1
        (beginPort espEnv passingInit builtinAccessor zeroWorld 2 0x35 4 5).2.2
        0x10 [1] 1).2.2.trace
        = [Event.initImpl, Event.sys (SysCall.malloc 2),
            Event.sys (SysCall.i2c_master_write_to_device 2 0x34 [0x10, 1] 2),
            Event.sys SysCall.free] ∧
      regFileAccessor.__wire = some 0 ∧
      (beginWire (quietEnv (Platform.arduino false)) false passingInit regFileAccessor
        zeroWorld 7 0x35 4 5).2.1.__wire = some 0 := by
  decide

/-- C9, as stated, fails for the ESP-IDF bind: on a fresh accessor with an
`initImpl` that returns false, the bind returns false and leaves `__has_init`
false. -/
theorem beginPort_failed_init_not_initialized :
    freshAccessor.__has_init = false ∧
      (beginPort (quietEnv Platform.espIdf) failingInit freshAccessor zeroWorld
        0 0x34 21 22).1 = false ∧
      (beginPort (quietEnv Platform.espIdf) failingInit freshAccessor zeroWorld
        0 0x34 21 22).2.1.__has_init = false := by
  decide

/-- C9, amended: on a not-yet-initialized accessor a built-in bind stores the
given address and pins (and the handle, respectively the port number), sets up
the bus, and returns exactly what `initImpl` returns when run after that set-up.
The `TwoWire` form leaves `__has_init` true whatever `initImpl` returns; the
ESP-IDF form clears both callbacks and leaves `__has_init` equal to `initImpl`'s
result. -/
theorem begin_builtin_first {σ β : Type} (env : Env β) (initImpl : InitImpl σ β)
    (a : XPowersCommon σ) (w : World σ β) (h : a.__has_init = false) :
    (∀ (f : Bool) (wire addr : Nat) (sda scl : Int),
      (beginWire env f initImpl a w wire addr sda scl).2.1
        = { a with __has_init := true, __sda := sda, __scl := scl, __wire := some wire,
                   __addr := addr } ∧
      (beginWire env f initImpl a w wire addr sda scl).1
        = (initImpl (beginWire env f initImpl a w wire addr sda scl).2.1
            (wireSetup env f w wire sda scl).user (wireSetup env f w wire sda scl).sys).1 ∧
      (beginWire env f initImpl a w wire addr sda scl).2.2.trace
        = (wireSetup env f w wire sda scl).trace ++ [Event.initImpl]) ∧
    (∀ (port_num : Int) (addr : Nat) (sda scl : Int),
      (beginPort env initImpl a w port_num addr sda scl).2.1
        = { a with __has_init := (beginPort env initImpl a w port_num addr sda scl).1,
                   __i2c_num := port_num, __sda := sda, __scl := scl, __addr := addr,
                   thisReadRegCallback := none, thisWriteRegCallback := none } ∧
      (beginPort env initImpl a w port_num addr sda scl).1
        = (initImpl { a with __i2c_num := port_num, __sda := sda, __scl := scl, __addr := addr,
                             thisReadRegCallback := none, thisWriteRegCallback := none }
            (i2cSetup env w port_num sda scl).user (i2cSetup env w port_num sda scl).sys).1 ∧
      (beginPort env initImpl a w port_num addr sda scl).2.2.trace
        = (i2cSetup env w port_num sda scl).trace ++ [Event.initImpl]) := by
  constructor
  · intro f wire addr sda scl
    simp [beginWire, h, callInitImpl]
  · intro port_num addr sda scl
    simp [beginPort, h, callInitImpl]

/-- C9, on a fresh accessor, for a `TwoWire` bind whose `initImpl` fails: address,
pins and handle are stored, `__has_init` is true and the bind returns false. -/
theorem begin_builtin_first_witness :
    (beginWire (quietEnv (Platform.arduino false)) false failingInit freshAccessor zeroWorld
        3 0x34 21 22).2.1
      = { freshAccessor with __has_init := true, __sda := 21, __scl := 22, __wire := some 3,
                             __addr := 0x34 } ∧
    (beginWire (quietEnv (Platform.arduino false)) false failingInit freshAccessor zeroWorld
        3 0x34 21 22).1 = false ∧
    (beginWire (quietEnv (Platform.arduino false)) false failingInit freshAccessor zeroWorld
        3 0x34 21 22).2.2.trace
      = [Event.sys (SysCall.wireBeginPins 3 21 22), Event.initImpl] :=
  (begin_builtin_first (quietEnv (Platform.arduino false)) failingInit freshAccessor
    zeroWorld rfl).1 false 3 0x34 21 22

/-- C10: when `initImpl` returns false during a callback bind on a
not-yet-initialized accessor, the bind returns false, yet the address and both
callbacks given are stored, and every later multi-byte read and write is the
one call of the stored callback with that address. -/
theorem beginCallback_failure_keeps_binding {σ β : Type} (env : Env β)
    (initImpl : InitImpl σ β) (a : XPowersCommon σ) (w : World σ β) (addr : Nat)
    (rd wr : iic_fptr_t σ) (h : a.__has_init = false)
    (hfail : (initImpl { a with __has_init := true, thisReadRegCallback := some rd,
                                thisWriteRegCallback := some wr, __addr := addr }
                w.user w.sys).1 = false) :
    (beginCallback initImpl a w addr (some rd) (some wr)).1 = false ∧
    (beginCallback initImpl a w addr (some rd) (some wr)).2.1.__addr = addr ∧
    (beginCallback initImpl a w addr (some rd) (some wr)).2.1.thisReadRegCallback = some rd ∧
    (beginCallback initImpl a w addr (some rd) (some wr)).2.1.thisWriteRegCallback = some wr ∧
    (∀ (w1 : World σ β) (reg : Nat) (buf : List Nat) (length : Nat),
      readRegisterBuf env (beginCallback initImpl a w addr (some rd) (some wr)).2.1
          w1 reg buf length
        = ((rd w1.user addr reg buf length).1, (rd w1.user addr reg buf length).2.1,
            { w1 with user := (rd w1.user addr reg buf length).2.2,
                      trace := w1.trace ++ [Event.readCallback addr reg buf length] }) ∧
      writeRegisterBuf env (beginCallback initImpl a w addr (some rd) (some wr)).2.1
          w1 reg buf length
        = ((wr w1.user addr reg buf length).1, (wr w1.user addr reg buf length).2.1,
            { w1 with user := (wr w1.user addr reg buf length).2.2,
                      trace := w1.trace ++ [Event.writeCallback addr reg buf length] })) := by
  refine ⟨?_, ?_, ?_, ?_, ?_⟩
  · simp [beginCallback, h, callInitImpl, hfail]
  · simp [beginCallback, h]
  · simp [beginCallback, h]
  · simp [beginCallback, h]
  · intro w1 reg buf length
    simp [beginCallback, h, readRegisterBuf, writeRegisterBuf, callReadCallback,
      callWriteCallback]

/-- C10, on a fresh accessor bound to the register-file transport at address
0x34 with a failing `initImpl`: the bind returns false and a following
`readRegister(0x10)` is served by the callback at address 0x34. -/
theorem beginCallback_failure_keeps_binding_witness :
    (beginCallback failingInit freshAccessor zeroWorld 0x34
        (some regFileRead) (some regFileWrite)).1 = false ∧
      (readRegisterBuf (quietEnv Platform.espIdf)
        (beginCallback failingInit freshAccessor zeroWorld 0x34
          (some regFileRead) (some regFileWrite)).2.1 zeroWorld 0x10 [0] 1).2.2.trace
        = [Event.readCallback 0x34 0x10 [0] 1] := by
  have h := beginCallback_failure_keeps_binding (quietEnv Platform.espIdf) failingInit
    freshAccessor zeroWorld 0x34 regFileRead regFileWrite rfl rfl
  refine ⟨h.1, ?_⟩
  rw [(h.2.2.2.2 zeroWorld 0x10 [0] 1).1]
  rfl

/-- The packing of H6L8 and H5L8 fits in 16 bits. -/
theorem maskHigh_pack_lt (h l m : Nat) (hm : m < 256) (hl : l < 256) :
    ((h &&& m) <<< 8) ||| l < 2 ^ 16 := by
  have h1 : h &&& m ≤ m := Nat.and_le_right
  have h2 : (h &&& m) <<< 8 < 2 ^ 16 := by
    rw [Nat.shiftLeft_eq]
    omega
  exact Nat.or_lt_two_pow h2 (by omega)

/-- The packing of H8L4 and H8L5 fits in 16 bits. -/
theorem maskLow_pack_lt (h l m k : Nat) (hh : h < 256) (hk : k ≤ 8) (hm : m < 256) :
    (h <<< k) ||| (l &&& m) < 2 ^ 16 := by
  have h1 : l &&& m ≤ m := Nat.and_le_right
  have h3 : 2 ^ k ≤ 2 ^ 8 := Nat.pow_le_pow_right (by decide) hk
  have h2 : h <<< k < 2 ^ 16 := by
    rw [Nat.shiftLeft_eq]
    calc h * 2 ^ k ≤ h * 2 ^ 8 := Nat.mul_le_mul_left h h3
      _ < 2 ^ 16 := by omega
  exact Nat.or_lt_two_pow h2 (by omega)

/-- C12: when the reads of the high and of the low register yield the bytes `h`
and `l`, `readRegisterH6L8` returns `((h AND 0x3F) << 8) OR l` and
`readRegisterH5L8` returns `((h AND 0x1F) << 8) OR l`; both values are below
2^16, so the `uint16_t` return type truncates nothing. -/
theorem readRegisterH6L8_H5L8_value {σ β : Type} (env : Env β) (a : XPowersCommon σ)
    (w : World σ β) (highReg lowReg h l : Nat) (hl : l < 256)
    (hhi : (readRegister env a w highReg).1 = (h : Int))
    (hlo : (readRegister env a (readRegister env a w highReg).2 lowReg).1 = (l : Int)) :
    (readRegisterH6L8 env a w highReg lowReg).1 = ((h &&& 0x3F) <<< 8) ||| l ∧
      (readRegisterH5L8 env a w highReg lowReg).1 = ((h &&& 0x1F) <<< 8) ||| l ∧
      ((h &&& 0x3F) <<< 8) ||| l < 2 ^ 16 ∧
      ((h &&& 0x1F) <<< 8) ||| l < 2 ^ 16 := by
  have b6 := maskHigh_pack_lt h l 0x3F (by decide) hl
  have b5 := maskHigh_pack_lt h l 0x1F (by decide) hl
  refine ⟨?_, ?_, b6, b5⟩
  · simp only [readRegisterH6L8, hhi, hlo, byte_ne_sentinel, or_self, if_false, Int.toNat_ofNat]
    exact Nat.mod_eq_of_lt b6
  · simp only [readRegisterH5L8, hhi, hlo, byte_ne_sentinel, or_self, if_false, Int.toNat_ofNat]
    exact Nat.mod_eq_of_lt b5

/-- C12, on the register file with register 0x01 = 0x3F and register 0x02 = 0xAB:
`readRegisterH6L8(0x01, 0x02)` is 0x3FAB. -/
theorem readRegisterH6L8_H5L8_value_witness :
    (readRegisterH6L8 (quietEnv Platform.espIdf) regFileAccessor (regWorld 0x3F 0xAB)
        0x01 0x02).1 = 0x3FAB := by
  have h := (readRegisterH6L8_H5L8_value (quietEnv Platform.espIdf) regFileAccessor
    (regWorld 0x3F 0xAB) 0x01 0x02 0x3F 0xAB (by decide) (by decide) (by decide)).1
  rw [h]
  decide

/-- C13: when the reads of the high and of the low register yield the bytes `h`
and `l`, `readRegisterH8L4` returns `(h << 4) OR (l AND 0x0F)` and
`readRegisterH8L5` returns `(h << 5) OR (l AND 0x1F)`; both values are below
2^16, so the `uint16_t` return type truncates nothing. -/
theorem readRegisterH8L4_H8L5_value {σ β : Type} (env : Env β) (a : XPowersCommon σ)
    (w : World σ β) (highReg lowReg h l : Nat) (hh : h < 256)
    (hhi : (readRegister env a w highReg).1 = (h : Int))
    (hlo : (readRegister env a (readRegister env a w highReg).2 lowReg).1 = (l : Int)) :
    (readRegisterH8L4 env a w highReg lowReg).1 = (h <<< 4) ||| (l &&& 0x0F) ∧
      (readRegisterH8L5 env a w highReg lowReg).1 = (h <<< 5) ||| (l &&& 0x1F) ∧
      (h <<< 4) ||| (l &&& 0x0F) < 2 ^ 16 ∧
      (h <<< 5) ||| (l &&& 0x1F) < 2 ^ 16 := by
  have b4 := maskLow_pack_lt h l 0x0F 4 hh (by decide) (by decide)
  have b5 := maskLow_pack_lt h l 0x1F 5 hh (by decide) (by decide)
  refine ⟨?_, ?_, b4, b5⟩
  · simp only [readRegisterH8L4, hhi, hlo, byte_ne_sentinel, or_self, if_false, Int.toNat_ofNat]
    exact Nat.mod_eq_of_lt b4
  · simp only [readRegisterH8L5, hhi, hlo, byte_ne_sentinel, or_self, if_false, Int.toNat_ofNat]
    exact Nat.mod_eq_of_lt b5

/-- C13, on the register file with high register 0x12 and low register 0x0F:
`readRegisterH8L4` is 0x12F. -/
theorem readRegisterH8L4_H8L5_value_witness :
    (readRegisterH8L4 (quietEnv Platform.espIdf) regFileAccessor (regWorld 0x12 0x0F)
        0x01 0x02).1 = 0x12F := by
  have h := (readRegisterH8L4_H8L5_value (quietEnv Platform.espIdf) regFileAccessor
    (regWorld 0x12 0x0F) 0x01 0x02 0x12 0x0F (by decide) (by decide) (by decide)).1
  rw [h]
  decide

/-- C14: for each of the four field readers, if the read of the high register or
the read of the low register yields -1 the result is 0, whatever the other read
yields; and if both reads yield the byte 0 the result is 0 as well, so the two
cases return the same value. -/
theorem fieldReaders_failure_is_zero {σ β : Type} (env : Env β) (a : XPowersCommon σ)
    (w : World σ β) (highReg lowReg : Nat) :
    (((readRegister env a w highReg).1 = -1 ∨
        (readRegister env a (readRegister env a w highReg).2 lowReg).1 = -1) →
      (readRegisterH8L4 env a w highReg lowReg).1 = 0 ∧
      (readRegisterH8L5 env a w highReg lowReg).1 = 0 ∧
      (readRegisterH6L8 env a w highReg lowReg).1 = 0 ∧
      (readRegisterH5L8 env a w highReg lowReg).1 = 0) ∧
    (((readRegister env a w highReg).1 = 0 ∧
        (readRegister env a (readRegister env a w highReg).2 lowReg).1 = 0) →
      (readRegisterH8L4 env a w highReg lowReg).1 = 0 ∧
      (readRegisterH8L5 env a w highReg lowReg).1 = 0 ∧
      (readRegisterH6L8 env a w highReg lowReg).1 = 0 ∧
      (readRegisterH5L8 env a w highReg lowReg).1 = 0) := by
  constructor
  · intro h
    simp [readRegisterH8L4, readRegisterH8L5, readRegisterH6L8, readRegisterH5L8, h]
  · intro h
    simp [readRegisterH8L4, readRegisterH8L5, readRegisterH6L8, readRegisterH5L8, h.1, h.2]

/-- C14, with a read callback that reports -1 over registers holding 0xFF: the
four field readers return 0, as they do over registers holding 0. -/
theorem fieldReaders_failure_is_zero_witness :
    ((readRegisterH8L4 (quietEnv Platform.espIdf) sentinelReadAccessor (regWorld 0xFF 0xFF)
        0x01 0x02).1 = 0 ∧
      (readRegisterH8L5 (quietEnv Platform.espIdf) sentinelReadAccessor (regWorld 0xFF 0xFF)
        0x01 0x02).1 = 0 ∧
      (readRegisterH6L8 (quietEnv Platform.espIdf) sentinelReadAccessor (regWorld 0xFF 0xFF)
        0x01 0x02).1 = 0 ∧
      (readRegisterH5L8 (quietEnv Platform.espIdf) sentinelReadAccessor (regWorld 0xFF 0xFF)
        0x01 0x02).1 = 0) ∧
    ((readRegisterH8L4 (quietEnv Platform.espIdf) regFileAccessor (regWorld 0 0)
        0x01 0x02).1 = 0 ∧
      (readRegisterH8L5 (quietEnv Platform.espIdf) regFileAccessor (regWorld 0 0)
        0x01 0x02).1 = 0 ∧
      (readRegisterH6L8 (quietEnv Platform.espIdf) regFileAccessor (regWorld 0 0)
        0x01 0x02).1 = 0 ∧
      (readRegisterH5L8 (quietEnv Platform.espIdf) regFileAccessor (regWorld 0 0)
        0x01 0x02).1 = 0) :=
  ⟨(fieldReaders_failure_is_zero (quietEnv Platform.espIdf) sentinelReadAccessor
      (regWorld 0xFF 0xFF) 0x01 0x02).1 (Or.inl (by decide)),
    (fieldReaders_failure_is_zero (quietEnv Platform.espIdf) regFileAccessor
      (regWorld 0 0) 0x01 0x02).2 ⟨by decide, by decide⟩⟩

/-- The single-byte read yields -1 or a byte. -/
theorem readRegister_range {σ β : Type} (env : Env β) (a : XPowersCommon σ)
    (w : World σ β) (reg : Nat) :
    (readRegister env a w reg).1 = -1 ∨
      ∃ v : Nat, v < 256 ∧ (readRegister env a w reg).1 = (v : Int) := by
  by_cases h : (readRegisterBuf env a w reg [0] 1).1 = -1
  · left
    simp [readRegister, h]
  · right
    exact ⟨(readRegisterBuf env a w reg [0] 1).2.1.headD 0 % 256, Nat.mod_lt _ (by decide),
      by simp [readRegister, h]⟩

set_option maxRecDepth 100000 in
/-- Setting bit `b` of a byte: the 64-bit `OR` narrowed to a byte is the byte `OR`. -/
theorem setVal_arith : ∀ v < 256, ∀ b < 8, (v ||| _BV b) % 256 = v ||| (1 <<< b) := by
  decide

set_option maxRecDepth 100000 in
/-- Clearing bit `b` of a byte: the 64-bit `AND NOT` narrowed to a byte is the
byte `AND` with the 8-bit complement of the mask. -/
theorem clrVal_arith :
    ∀ v < 256, ∀ b < 8, (v &&& notULL (_BV b)) % 256 = v &&& (0xFF ^^^ (1 <<< b)) := by
  decide

set_option maxRecDepth 100000 in
/-- Testing bit `b` of a byte with the mask `_BV b`. -/
theorem getBit_arith : ∀ v < 256, ∀ b < 8, decide (v &&& _BV b ≠ 0) = v.testBit b := by
  decide

/-- C15: when the read of `r` yields the byte `v` and `b` is in 0..7,
`setRegisterBit(r, b)` is that read followed by the one single-byte write of
`v OR (1 << b)` to `r`, and `clrRegisterBit(r, b)` is that read followed by the
one single-byte write of `v AND NOT (1 << b)` (the complement taken in 8 bits) to
`r`; each returns true exactly when its write reports status 0. -/
theorem setClr_write_value {σ β : Type} (env : Env β) (a : XPowersCommon σ)
    (w : World σ β) (r b v : Nat) (hb : b < 8) (hv : v < 256)
    (hread : (readRegister env a w r).1 = (v : Int)) :
    setRegisterBit env a w r b
      = (decide ((writeRegister env a (readRegister env a w r).2 r (v ||| (1 <<< b))).1 = 0),
          (writeRegister env a (readRegister env a w r).2 r (v ||| (1 <<< b))).2) ∧
    clrRegisterBit env a w r b
      = (decide ((writeRegister env a (readRegister env a w r).2 r
            (v &&& (0xFF ^^^ (1 <<< b)))).1 = 0),
          (writeRegister env a (readRegister env a w r).2 r
            (v &&& (0xFF ^^^ (1 <<< b)))).2) := by
  constructor
  · simp only [setRegisterBit, hread, byte_ne_sentinel, if_false, toULL_byte v hv,
      setVal_arith v hv b hb]
  · simp only [clrRegisterBit, hread, byte_ne_sentinel, if_false, toULL_byte v hv,
      clrVal_arith v hv b hb]

/-- C15, on the register file with register 0x01 = 0x12: setting bit 5 writes 0x32
and clearing bit 1 writes 0x10, each as one write callback call after the read. -/
theorem setClr_write_value_witness :
    (setRegisterBit (quietEnv Platform.espIdf) regFileAccessor (regWorld 0x12 0) 0x01 5).1
        = true ∧
      (setRegisterBit (quietEnv Platform.espIdf) regFileAccessor (regWorld 0x12 0)
        0x01 5).2.trace
        = [Event.readCallback 0x34 0x01 [0] 1, Event.writeCallback 0x34 0x01 [0x32] 1] ∧
      (clrRegisterBit (quietEnv Platform.espIdf) regFileAccessor (regWorld 0x12 0)
        0x01 1).2.trace
        = [Event.readCallback 0x34 0x01 [0] 1, Event.writeCallback 0x34 0x01 [0x10] 1] := by
  have h5 := setClr_write_value (quietEnv Platform.espIdf) regFileAccessor (regWorld 0x12 0)
    0x01 5 0x12 (by decide) (by decide) (by decide)
  have h1 := setClr_write_value (quietEnv Platform.espIdf) regFileAccessor (regWorld 0x12 0)
    0x01 1 0x12 (by decide) (by decide) (by decide)
  rw [h5.1, h1.2]
  decide

/-- C16: for `b` in 0..7, `getRegisterBit(r, b)` returns true exactly when the
read of `r` does not yield -1 and bit `b` of the byte read is 1 (so it returns
false when the bit is clear and when the read fails); its whole effect is that
of the one single-byte read, which with a read callback bound is one call of
that callback and no other call. -/
theorem getRegisterBit_iff {σ β : Type} (env : Env β) (a : XPowersCommon σ)
    (w : World σ β) (r b : Nat) (hb : b < 8) :
    ((getRegisterBit env a w r b).1 = true ↔
      ((readRegister env a w r).1 ≠ -1 ∧
        (readRegister env a w r).1.toNat.testBit b = true)) ∧
    (getRegisterBit env a w r b).2 = (readRegister env a w r).2 ∧
    (∀ rd : iic_fptr_t σ, a.thisReadRegCallback = some rd →
      (getRegisterBit env a w r b).2.trace
        = w.trace ++ [Event.readCallback a.__addr r [0] 1]) := by
  have hw : (getRegisterBit env a w r b).2 = (readRegister env a w r).2 := by
    simp only [getRegisterBit]
    split <;> rfl
  refine ⟨?_, hw, ?_⟩
  · rcases readRegister_range env a w r with h | ⟨v, hv, h⟩
    · simp [getRegisterBit, h]
    · simp only [getRegisterBit, h, byte_ne_sentinel, if_false, toULL_byte v hv,
        getBit_arith v hv b hb, Int.toNat_ofNat, ne_eq, not_false_eq_true, true_and]
  · intro rd hrd
    rw [hw]
    simp [readRegister, readRegisterBuf_callback env a w rd hrd, callReadCallback]

/-- C16, on the register file with register 0x01 = 0x12: bit 4 reads as true, and
the one call made is the read callback's. -/
theorem getRegisterBit_iff_witness :
    (getRegisterBit (quietEnv Platform.espIdf) regFileAccessor (regWorld 0x12 0) 0x01 4).1
        = true ∧
      (getRegisterBit (quietEnv Platform.espIdf) regFileAccessor (regWorld 0x12 0)
        0x01 4).2.trace = [Event.readCallback 0x34 0x01 [0] 1] := by
  have h := getRegisterBit_iff (quietEnv Platform.espIdf) regFileAccessor (regWorld 0x12 0)
    0x01 4 (by decide)
  exact ⟨h.1.2 (by decide), h.2.2 regFileRead rfl⟩

/-- C19: if the single-byte read made by `setRegisterBit` or `clrRegisterBit`
yields -1, the helper returns false and its whole effect is that of the read: no
write follows, so with a read callback bound the one call made is that callback's
and the user state is as that callback left it. -/
theorem setClr_read_failure {σ β : Type} (env : Env β) (a : XPowersCommon σ)
    (w : World σ β) (r b : Nat) (hfail : (readRegister env a w r).1 = -1) :
    setRegisterBit env a w r b = (false, (readRegister env a w r).2) ∧
    clrRegisterBit env a w r b = (false, (readRegister env a w r).2) ∧
    (∀ rd : iic_fptr_t σ, a.thisReadRegCallback = some rd →
      (readRegister env a w r).2.trace = w.trace ++ [Event.readCallback a.__addr r [0] 1] ∧
      (readRegister env a w r).2.user = (rd w.user a.__addr r [0] 1).2.2 ∧
      (readRegister env a w r).2.sys = w.sys) := by
  refine ⟨?_, ?_, ?_⟩
  · simp [setRegisterBit, hfail]
  · simp [clrRegisterBit, hfail]
  · intro rd hrd
    simp [readRegister, readRegisterBuf_callback env a w rd hrd, callReadCallback]

/-- C19, with a read callback that reports -1 over registers holding 0xFF:
`setRegisterBit` returns false, only the read callback is called and register
0x01 still holds 0xFF. -/
theorem setClr_read_failure_witness :
    (setRegisterBit (quietEnv Platform.espIdf) sentinelReadAccessor (regWorld 0xFF 0xFF)
        0x01 3).1 = false ∧
      (setRegisterBit (quietEnv Platform.espIdf) sentinelReadAccessor (regWorld 0xFF 0xFF)
        0x01 3).2.trace = [Event.readCallback 0x34 0x01 [0] 1] ∧
      (setRegisterBit (quietEnv Platform.espIdf) sentinelReadAccessor (regWorld 0xFF 0xFF)
        0x01 3).2.user 0x01 = 0xFF := by
  have h := setClr_read_failure (quietEnv Platform.espIdf) sentinelReadAccessor
    (regWorld 0xFF 0xFF) 0x01 3 (by decide)
  rw [h.1]
  exact ⟨rfl, (h.2.2 sentinelRead rfl).1, by rw [(h.2.2 sentinelRead rfl).2.1]; rfl⟩

set_option maxRecDepth 1000000 in
/-- A mask `_BV b` with `b` in 8..63 has no bit inside a byte. -/
theorem highBit_arith : ∀ v < 256, ∀ b < 64, 8 ≤ b →
    (v ||| _BV b) % 256 = v ∧ (v &&& notULL (_BV b)) % 256 = v ∧ v &&& _BV b = 0 := by
  decide

/-- C20: for a bit index `b` in 8..63, when the read of `r` yields the byte `v`,
`setRegisterBit(r, b)` and `clrRegisterBit(r, b)` are that read followed by the
single-byte write of `v` itself to `r` (returning whether that write reports
status 0); and `getRegisterBit(r, b)` returns false whatever the read yields. -/
theorem highBit_index_writes_back {σ β : Type} (env : Env β) (a : XPowersCommon σ)
    (w : World σ β) (r b : Nat) (h8 : 8 ≤ b) (h64 : b < 64) :
    (∀ v : Nat, v < 256 → (readRegister env a w r).1 = (v : Int) →
      setRegisterBit env a w r b
        = (decide ((writeRegister env a (readRegister env a w r).2 r v).1 = 0),
            (writeRegister env a (readRegister env a w r).2 r v).2) ∧
      clrRegisterBit env a w r b
        = (decide ((writeRegister env a (readRegister env a w r).2 r v).1 = 0),
            (writeRegister env a (readRegister env a w r).2 r v).2)) ∧
    (getRegisterBit env a w r b).1 = false := by
  constructor
  · intro v hv hread
    have key := highBit_arith v hv b h64 h8
    constructor
    · simp only [setRegisterBit, hread, byte_ne_sentinel, if_false, toULL_byte v hv, key.1]
    · simp only [clrRegisterBit, hread, byte_ne_sentinel, if_false, toULL_byte v hv, key.2.1]
  · rcases readRegister_range env a w r with h | ⟨v, hv, h⟩
    · simp [getRegisterBit, h]
    · have key := highBit_arith v hv b h64 h8
      simp [getRegisterBit, h, byte_ne_sentinel, toULL_byte v hv, key.2.2]

/-- C20, on the register file with register 0x01 = 0xFF and bit index 8: the set
writes 0xFF back, and the bit reads as false. -/
theorem highBit_index_writes_back_witness :
    (setRegisterBit (quietEnv Platform.espIdf) regFileAccessor (regWorld 0xFF 0)
        0x01 8).2.trace
        = [Event.readCallback 0x34 0x01 [0] 1, Event.writeCallback 0x34 0x01 [0xFF] 1] ∧
      (getRegisterBit (quietEnv Platform.espIdf) regFileAccessor (regWorld 0xFF 0)
        0x01 8).1 = false := by
  have h := highBit_index_writes_back (quietEnv Platform.espIdf) regFileAccessor
    (regWorld 0xFF 0) 0x01 8 (by decide) (by decide)
  refine ⟨?_, h.2⟩
  rw [(h.1 0xFF (by decide) (by decide)).1]
  decide

/-- A byte has no bit at index 8 or above. -/
theorem byte_testBit_high (x j : Nat) (hx : x < 256) (hj : 8 ≤ j) : x.testBit j = false := by
  apply Nat.testBit_lt_two_pow
  calc x < 2 ^ 8 := hx
    _ ≤ 2 ^ j := Nat.pow_le_pow_right (by decide) hj

/-- Setting bit `b` of a byte leaves every other bit as it was. -/
theorem setVal_other_bits (x b j : Nat) (hx : x < 256) (hb : b < 8) (hj : j ≠ b) :
    ((x ||| _BV b) % 256).testBit j = x.testBit j := by
  rw [setVal_arith x hx b hb, Nat.testBit_or, Nat.one_shiftLeft, Nat.testBit_two_pow]
  have : decide (b = j) = false := by simpa using fun h => hj h.symm
  rw [this, Bool.or_false]

/-- Clearing bit `b` of a byte leaves every other bit as it was. -/
theorem clrVal_other_bits (x b j : Nat) (hx : x < 256) (hb : b < 8) (hj : j ≠ b) :
    ((x &&& notULL (_BV b)) % 256).testBit j = x.testBit j := by
  rw [clrVal_arith x hx b hb, Nat.testBit_and, Nat.testBit_xor, Nat.one_shiftLeft,
    Nat.testBit_two_pow]
  have h1 : decide (b = j) = false := by simpa using fun h => hj h.symm
  rw [h1]
  by_cases h8 : j < 8
  · have h2 : Nat.testBit 0xFF j = true := by
      have := Nat.testBit_two_pow_sub_one 8 j
      simpa [h8] using this
    rw [h2]
    simp
  · rw [byte_testBit_high x j hx (by omega)]
    simp

/-- C18: over the register-file callback transport, with `b` in 0..7 and register
`r` holding a byte, `setRegisterBit(r, b)` and `clrRegisterBit(r, b)` leave every
register other than `r` as it was and leave every bit of register `r` other than
bit `b` as it was. -/
theorem setClr_frame {β : Type} (env : Env β) (a : XPowersCommon RegFile)
    (w : World RegFile β) (r b : Nat)
    (hrd : a.thisReadRegCallback = some regFileRead)
    (hwr : a.thisWriteRegCallback = some regFileWrite)
    (hr : r < 256) (hb : b < 8) (hbyte : w.user r < 256) :
    (∀ k : Nat, k ≠ r → (setRegisterBit env a w r b).2.user k = w.user k) ∧
    (∀ j : Nat, j ≠ b →
      ((setRegisterBit env a w r b).2.user r).testBit j = (w.user r).testBit j) ∧
    (∀ k : Nat, k ≠ r → (clrRegisterBit env a w r b).2.user k = w.user k) ∧
    (∀ j : Nat, j ≠ b →
      ((clrRegisterBit env a w r b).2.user r).testBit j = (w.user r).testBit j) := by
  have hx : w.user r % 256 = w.user r := Nat.mod_eq_of_lt hbyte
  have hset : (setRegisterBit env a w r b).2.user
      = fun k => if k = r then (w.user r ||| _BV b) % 256 else w.user k := by
    simp only [setRegisterBit, readRegister_regFile env a _ hrd,
      writeRegister_regFile env a _ hwr, byte_ne_sentinel, if_false, Nat.mod_eq_of_lt hr, hx,
      toULL_byte _ hbyte]
  have hclr : (clrRegisterBit env a w r b).2.user
      = fun k => if k = r then (w.user r &&& notULL (_BV b)) % 256 else w.user k := by
    simp only [clrRegisterBit, readRegister_regFile env a _ hrd,
      writeRegister_regFile env a _ hwr, byte_ne_sentinel, if_false, Nat.mod_eq_of_lt hr, hx,
      toULL_byte _ hbyte]
  refine ⟨?_, ?_, ?_, ?_⟩
  · intro k hk
    rw [hset]
    simp [hk]
  · intro j hj
    rw [hset]
    simpa using setVal_other_bits (w.user r) b j hbyte hb hj
  · intro k hk
    rw [hclr]
    simp [hk]
  · intro j hj
    rw [hclr]
    simpa using clrVal_other_bits (w.user r) b j hbyte hb hj

/-- C18, on the register file with register 0x01 = 0x12 and register 0x02 = 0xAB:
setting bit 5 of register 0x01 leaves register 0x02 at 0xAB and bit 4 of
register 0x01 set. -/
theorem setClr_frame_witness :
    (setRegisterBit (quietEnv Platform.espIdf) regFileAccessor (regWorld 0x12 0xAB)
        0x01 5).2.user 0x02 = 0xAB ∧
      ((setRegisterBit (quietEnv Platform.espIdf) regFileAccessor (regWorld 0x12 0xAB)
        0x01 5).2.user 0x01).testBit 4 = true := by
  have h := setClr_frame (quietEnv Platform.espIdf) regFileAccessor (regWorld 0x12 0xAB)
    0x01 5 rfl rfl (by decide) (by decide) (by decide)
  exact ⟨h.1 0x02 (by decide), (h.2.1 4 (by decide)).trans (by decide)⟩

/-- C17, as stated, fails: with no write callback bound, on an ESP-IDF platform
whose `malloc` returns the null pointer the multi-byte write returns -1 and the
only platform call is that `malloc`, so no bus transaction is issued; and on
Arduino an accessor without a bus handle returns -1 with no platform call. -/
theorem writeRegisterBuf_builtin_no_transaction :
    (writeRegisterBuf noMemEnv builtinAccessor zeroWorld 0x10 [1, 2] 2).1 = -1 ∧
      (writeRegisterBuf noMemEnv builtinAccessor zeroWorld 0x10 [1, 2] 2).2.2.trace
        = [Event.sys (SysCall.malloc 3)] ∧
      (writeRegisterBuf (quietEnv (Platform.arduino false)) freshAccessor zeroWorld
        0x10 [1, 2] 2).1 = -1 ∧
      (writeRegisterBuf (quietEnv (Platform.arduino false)) freshAccessor zeroWorld
        0x10 [1, 2] 2).2.2.trace = [] := by
  decide

/-- C17, amended: with no write callback bound, the multi-byte write does the
following.  On ESP-IDF, when `malloc(length + 1)` gives a non-null pointer: the
platform calls are that `malloc`, one `i2c_master_write_to_device` to the bound
port and address with the payload `[reg]` followed by `buf[0..length)` and the
length `length + 1`, and `free`; the result is 0 if that transaction answers
`ESP_OK` and -1 if not.  When `malloc` gives the null pointer the result is -1
and no transaction is issued.  On Arduino, when a bus handle is set: the platform
calls are `beginTransmission(__addr)`, `write(reg)`, `write(buf, length)`,
`endTransmission()`, and the result is 0 if `endTransmission` answers 0 and -1 if
not.  When no bus handle is set the result is -1 and nothing is called. -/
theorem writeRegisterBuf_builtin_shape {σ β : Type} (env : Env β) (a : XPowersCommon σ)
    (w : World σ β) (reg : Nat) (buf : List Nat) (length : Nat)
    (hwr : a.thisWriteRegCallback = none) :
    (env.platform = Platform.espIdf →
      ((env.sys w.sys (SysCall.malloc (length + 1))).1.status ≠ 0 →
        (writeRegisterBuf env a w reg buf length).2.2.trace
          = w.trace ++
            [Event.sys (SysCall.malloc (length + 1)),
              Event.sys (SysCall.i2c_master_write_to_device a.__i2c_num a.__addr
                (reg :: buf.take length) (length + 1)),
              Event.sys SysCall.free] ∧
        (writeRegisterBuf env a w reg buf length).1
          = (if (env.sys (sysRun env w.sys [SysCall.malloc (length + 1)])
                  (SysCall.i2c_master_write_to_device a.__i2c_num a.__addr
                    (reg :: buf.take length) (length + 1))).1.status = ESP_OK
              then 0 else -1) ∧
        (length ≤ buf.length → (reg :: buf.take length).length = length + 1)) ∧
      ((env.sys w.sys (SysCall.malloc (length + 1))).1.status = 0 →
        (writeRegisterBuf env a w reg buf length).1 = -1 ∧
        (writeRegisterBuf env a w reg buf length).2.2.trace
          = w.trace ++ [Event.sys (SysCall.malloc (length + 1))])) ∧
    (∀ f : Bool, env.platform = Platform.arduino f →
      (∀ wire : Nat, a.__wire = some wire →
        (writeRegisterBuf env a w reg buf length).2.2.trace
          = w.trace ++
            [Event.sys (SysCall.wireBeginTransmission wire a.__addr),
              Event.sys (SysCall.wireWrite wire reg),
              Event.sys (SysCall.wireWriteBuf wire buf length),
              Event.sys (SysCall.wireEndTransmission wire)] ∧
        (writeRegisterBuf env a w reg buf length).1
          = (if (env.sys (sysRun env w.sys
                    [SysCall.wireBeginTransmission wire a.__addr, SysCall.wireWrite wire reg,
                      SysCall.wireWriteBuf wire buf length])
                  (SysCall.wireEndTransmission wire)).1.status = 0
              then 0 else -1)) ∧
      (a.__wire = none →
        (writeRegisterBuf env a w reg buf length).1 = -1 ∧
        (writeRegisterBuf env a w reg buf length).2.2 = w)) := by
  constructor
  · intro hp
    constructor
    · intro hm
      refine ⟨?_, ?_, ?_⟩
      · simp only [writeRegisterBuf, hwr, hp, sysCall, hm, if_false]
        split <;> simp
      · simp only [writeRegisterBuf, hwr, hp, sysCall, hm, if_false, sysRun]
        split
        · rename_i h
          rw [if_neg (fun h1 => h h1.symm)]
        · rename_i h
          have h2 := not_not.mp h
          rw [if_pos h2.symm]
      · intro hlen
        simp [List.length_take, Nat.min_eq_left hlen]
    · intro hm
      simp [writeRegisterBuf, hwr, hp, sysCall, hm]
  · intro f hp
    constructor
    · intro wire hwire
      simp [writeRegisterBuf, hwr, hp, hwire, sysCall, sysRun]
    · intro hwire
      simp [writeRegisterBuf, hwr, hp, hwire]

/-- C17, on an ESP-IDF platform whose `malloc` succeeds: a two-byte write at
register 0x10 is one transaction to port 1, address 0x34, with payload
`[0x10, 1, 2]` of length 3, and returns 0. -/
theorem writeRegisterBuf_builtin_shape_witness :
    (writeRegisterBuf espEnv builtinAccessor zeroWorld 0x10 [1, 2] 2).2.2.trace
        = [Event.sys (SysCall.malloc 3),
            Event.sys (SysCall.i2c_master_write_to_device 1 0x34 [0x10, 1, 2] 3),
            Event.sys SysCall.free] ∧
      (writeRegisterBuf espEnv builtinAccessor zeroWorld 0x10 [1, 2] 2).1 = 0 := by
  have h := (writeRegisterBuf_builtin_shape espEnv builtinAccessor zeroWorld 0x10 [1, 2] 2
    rfl).1 rfl
  have h1 := h.1 (by decide)
  exact ⟨h1.1, h1.2.1⟩

/-- The relation `UsesAddr` holds of a world and itself. -/
theorem usesAddr_refl {σ β : Type} (addr : Nat) (w : World σ β) : UsesAddr addr w w :=
  ⟨[], by simp, by simp⟩

/-- The relation `UsesAddr` composes. -/
theorem usesAddr_trans {σ β : Type} {addr : Nat} {w w1 w2 : World σ β}
    (h1 : UsesAddr addr w w1) (h2 : UsesAddr addr w1 w2) : UsesAddr addr w w2 := by
  obtain ⟨l1, e1, p1⟩ := h1
  obtain ⟨l2, e2, p2⟩ := h2
  refine ⟨l1 ++ l2, by rw [e2, e1, List.append_assoc], ?_⟩
  intro e he
  rcases List.mem_append.mp he with h | h
  · exact p1 e h
  · exact p2 e h

/-- One logged call that hands over `addr`, or no address. -/
theorem usesAddr_one {σ β : Type} {addr : Nat} {w w1 : World σ β} (e : Event)
    (ht : w1.trace = w.trace ++ [e]) (he : e.devAddr = none ∨ e.devAddr = some addr) :
    UsesAddr addr w w1 :=
  ⟨[e], ht, by simpa using he⟩

/-- A platform call that hands over `addr`, or no address. -/
theorem sysCall_usesAddr {σ β : Type} (env : Env β) (addr : Nat) (w : World σ β)
    (c : SysCall) (hc : (Event.sys c).devAddr = none ∨ (Event.sys c).devAddr = some addr) :
    UsesAddr addr w (sysCall env w c).2 :=
  usesAddr_one (Event.sys c) (Eq.refl _) hc

/-- The chip-init step hands no address to the transport in the trace. -/
theorem callInitImpl_usesAddr {σ β : Type} (initImpl : InitImpl σ β) (addr : Nat)
    (a : XPowersCommon σ) (w : World σ β) :
    UsesAddr addr w (callInitImpl initImpl a w).2 :=
  usesAddr_one Event.initImpl (Eq.refl _) (Or.inl (Eq.refl _))

/-- The multi-byte read hands only the stored address to the transport. -/
theorem readRegisterBuf_usesAddr {σ β : Type} (env : Env β) (a : XPowersCommon σ)
    (w : World σ β) (reg : Nat) (buf : List Nat) (length : Nat) :
    UsesAddr a.__addr w (readRegisterBuf env a w reg buf length).2.2 := by
  unfold readRegisterBuf
  cases hcb : a.thisReadRegCallback with
  | some cb =>
    exact usesAddr_one (Event.readCallback a.__addr reg buf length) (Eq.refl _)
      (Or.inr (Eq.refl _))
  | none =>
    cases env.platform with
    | arduino f =>
      cases a.__wire with
      | none => exact usesAddr_refl _ _
      | some wire =>
        have s1 := sysCall_usesAddr env a.__addr w (SysCall.wireBeginTransmission wire a.__addr)
          (Or.inr (Eq.refl _))
        have s2 := sysCall_usesAddr env a.__addr
          (sysCall env w (SysCall.wireBeginTransmission wire a.__addr)).2
          (SysCall.wireWrite wire reg) (Or.inl (Eq.refl _))
        have s3 := sysCall_usesAddr env a.__addr
          (sysCall env (sysCall env w (SysCall.wireBeginTransmission wire a.__addr)).2
            (SysCall.wireWrite wire reg)).2
          (SysCall.wireEndTransmission wire) (Or.inl (Eq.refl _))
        have s123 := usesAddr_trans (usesAddr_trans s1 s2) s3
        simp only
        split
        · exact s123
        · have s4 := sysCall_usesAddr env a.__addr
            (sysCall env (sysCall env (sysCall env w
              (SysCall.wireBeginTransmission wire a.__addr)).2
              (SysCall.wireWrite wire reg)).2 (SysCall.wireEndTransmission wire)).2
            (SysCall.wireRequestFrom wire a.__addr length) (Or.inr (Eq.refl _))
          exact usesAddr_trans (usesAddr_trans s123 s4)
            (sysCall_usesAddr env a.__addr _ (SysCall.wireReadBytes wire buf length)
              (Or.inl (Eq.refl _)))
    | espIdf =>
      have s1 := sysCall_usesAddr env a.__addr w
        (SysCall.i2c_master_write_read_device a.__i2c_num a.__addr [reg] 1 buf length)
        (Or.inr (Eq.refl _))
      simp only
      split <;> exact s1

/-- The multi-byte write hands only the stored address to the transport. -/
theorem writeRegisterBuf_usesAddr {σ β : Type} (env : Env β) (a : XPowersCommon σ)
    (w : World σ β) (reg : Nat) (buf : List Nat) (length : Nat) :
    UsesAddr a.__addr w (writeRegisterBuf env a w reg buf length).2.2 := by
  unfold writeRegisterBuf
  cases hcb : a.thisWriteRegCallback with
  | some cb =>
    exact usesAddr_one (Event.writeCallback a.__addr reg buf length) (Eq.refl _)
      (Or.inr (Eq.refl _))
  | none =>
    cases env.platform with
    | arduino f =>
      cases a.__wire with
      | none => exact usesAddr_refl _ _
      | some wire =>
        have s1 := sysCall_usesAddr env a.__addr w (SysCall.wireBeginTransmission wire a.__addr)
          (Or.inr (Eq.refl _))
        have s2 := sysCall_usesAddr env a.__addr
          (sysCall env w (SysCall.wireBeginTransmission wire a.__addr)).2
          (SysCall.wireWrite wire reg) (Or.inl (Eq.refl _))
        have s3 := sysCall_usesAddr env a.__addr
          (sysCall env (sysCall env w (SysCall.wireBeginTransmission wire a.__addr)).2
            (SysCall.wireWrite wire reg)).2
          (SysCall.wireWriteBuf wire buf length) (Or.inl (Eq.refl _))
        exact usesAddr_trans (usesAddr_trans (usesAddr_trans s1 s2) s3)
          (sysCall_usesAddr env a.__addr _ (SysCall.wireEndTransmission wire)
            (Or.inl (Eq.refl _)))
    | espIdf =>
      have s1 := sysCall_usesAddr env a.__addr w (SysCall.malloc (length + 1))
        (Or.inl (Eq.refl _))
      simp only
      split
      · exact s1
      · have s2 := sysCall_usesAddr env a.__addr (sysCall env w (SysCall.malloc (length + 1))).2
          (SysCall.i2c_master_write_to_device a.__i2c_num a.__addr (reg :: buf.take length)
            (length + 1)) (Or.inr (Eq.refl _))
        have s3 := sysCall_usesAddr env a.__addr
          (sysCall env (sysCall env w (SysCall.malloc (length + 1))).2
            (SysCall.i2c_master_write_to_device a.__i2c_num a.__addr (reg :: buf.take length)
              (length + 1))).2 SysCall.free (Or.inl (Eq.refl _))
        split <;> exact usesAddr_trans (usesAddr_trans s1 s2) s3

/-- Every register operation hands only the stored address to the transport. -/
theorem runOp_usesAddr {σ β : Type} (env : Env β) (a : XPowersCommon σ) (w : World σ β)
    (op : RegOp) : UsesAddr a.__addr w (runOp env a w op) := by
  have hR : ∀ (w : World σ β) (reg : Nat),
      UsesAddr a.__addr w (readRegister env a w reg).2 :=
    fun w reg => readRegisterBuf_usesAddr env a w reg [0] 1
  have hW : ∀ (w : World σ β) (reg val : Nat),
      UsesAddr a.__addr w (writeRegister env a w reg val).2 :=
    fun w reg val => writeRegisterBuf_usesAddr env a w reg [val] 1
  cases op with
  | readRegister reg => exact hR w reg
  | writeRegister reg val => exact hW w reg val
  | readRegisterBuf reg buf length => exact readRegisterBuf_usesAddr env a w reg buf length
  | writeRegisterBuf reg buf length => exact writeRegisterBuf_usesAddr env a w reg buf length
  | setRegisterBit r b =>
    simp only [runOp, setRegisterBit]
    split
    · exact hR w r
    · exact usesAddr_trans (hR w r) (hW _ r _)
  | clrRegisterBit r b =>
    simp only [runOp, clrRegisterBit]
    split
    · exact hR w r
    · exact usesAddr_trans (hR w r) (hW _ r _)
  | getRegisterBit r b =>
    simp only [runOp, getRegisterBit]
    split
    · exact hR w r
    · exact hR w r
  | readRegisterH8L4 h l =>
    simp only [runOp, readRegisterH8L4]
    split <;> exact usesAddr_trans (hR w h) (hR _ l)
  | readRegisterH8L5 h l =>
    simp only [runOp, readRegisterH8L5]
    split <;> exact usesAddr_trans (hR w h) (hR _ l)
  | readRegisterH6L8 h l =>
    simp only [runOp, readRegisterH6L8]
    split <;> exact usesAddr_trans (hR w h) (hR _ l)
  | readRegisterH5L8 h l =>
    simp only [runOp, readRegisterH5L8]
    split <;> exact usesAddr_trans (hR w h) (hR _ l)

/-- On an initialized accessor the protected `begin()` only runs `initImpl`. -/
theorem beginProtected_initialized {σ β : Type} (env : Env β) (initImpl : InitImpl σ β)
    (a : XPowersCommon σ) (w : World σ β) (h : a.__has_init = true) :
    beginProtected env initImpl a w
      = ((callInitImpl initImpl a w).1, a, (callInitImpl initImpl a w).2) := by
  unfold beginProtected
  cases env.platform <;> simp [h]

/-- On an initialized accessor a step of any kind keeps the accessor initialized,
keeps the stored address, and hands only that address to the transport. -/
theorem runStep_initialized {σ β : Type} (env : Env β) (initImpl : InitImpl σ β)
    (s : XPowersCommon σ × World σ β) (h : s.1.__has_init = true) (st : Step σ) :
    (runStep env initImpl s st).1.__has_init = true ∧
      (runStep env initImpl s st).1.__addr = s.1.__addr ∧
      UsesAddr s.1.__addr s.2 (runStep env initImpl s st).2 := by
  cases st with
  | bind b =>
    cases b with
    | callback addr rd wr =>
      have k := beginCallback_initialized initImpl s.1 s.2 h addr rd wr
      simp only [runStep, runBind]
      rw [k.2.1]
      exact ⟨h, rfl, usesAddr_one Event.initImpl k.2.2.2.2 (Or.inl (Eq.refl _))⟩
    | wire f wire addr sda scl =>
      have k := beginWire_initialized env f initImpl s.1 s.2 h wire addr sda scl
      simp only [runStep, runBind]
      rw [k.2.1]
      exact ⟨h, rfl, usesAddr_one Event.initImpl k.2.2.2.2 (Or.inl (Eq.refl _))⟩
    | port port_num addr sda scl =>
      have k := beginPort_initialized env initImpl s.1 s.2 h port_num addr sda scl
      simp only [runStep, runBind]
      rw [k.2.1]
      exact ⟨h, rfl, usesAddr_one Event.initImpl k.2.2.2.2 (Or.inl (Eq.refl _))⟩
  | beginProtected =>
    simp only [runStep]
    rw [beginProtected_initialized env initImpl s.1 s.2 h]
    exact ⟨h, rfl, callInitImpl_usesAddr initImpl _ s.1 s.2⟩
  | op o =>
    exact ⟨h, rfl, runOp_usesAddr env s.1 s.2 o⟩

/-- On an initialized accessor no sequence of steps changes the stored address,
and every call in it hands only that address to the transport. -/
theorem runSteps_initialized {σ β : Type} (env : Env β) (initImpl : InitImpl σ β)
    (sts : List (Step σ)) (s : XPowersCommon σ × World σ β) (h : s.1.__has_init = true) :
    (runSteps env initImpl s sts).1.__has_init = true ∧
      (runSteps env initImpl s sts).1.__addr = s.1.__addr ∧
      UsesAddr s.1.__addr s.2 (runSteps env initImpl s sts).2 := by
  induction sts generalizing s with
  | nil => exact ⟨h, rfl, usesAddr_refl _ _⟩
  | cons st sts ih =>
    have k := runStep_initialized env initImpl s h st
    have k2 := ih (runStep env initImpl s st) k.1
    simp only [runSteps]
    refine ⟨k2.1, k2.2.1.trans k.2.1, ?_⟩
    have k3 := k2.2.2
    rw [k.2.1] at k3
    exact usesAddr_trans k.2.2 k3

/-- A bind that returns true on a not-yet-initialized accessor leaves it
initialized and holding the address given. -/
theorem runBind_first_success {σ β : Type} (env : Env β) (initImpl : InitImpl σ β)
    (a : XPowersCommon σ) (w : World σ β) (b : BindCall σ) (h0 : a.__has_init = false)
    (hs : (runBind env initImpl a w b).1 = true) :
    (runBind env initImpl a w b).2.1.__has_init = true ∧
      (runBind env initImpl a w b).2.1.__addr = b.addr := by
  cases b with
  | callback addr rd wr => simp [runBind, beginCallback, h0, BindCall.addr]
  | wire f wire addr sda scl => simp [runBind, beginWire, h0, BindCall.addr]
  | port port_num addr sda scl =>
    simp only [runBind, beginPort, h0] at hs ⊢
    simp only [Bool.false_eq_true, if_false] at hs ⊢
    exact ⟨hs, rfl⟩

/-- C11, as stated, fails: on a fresh accessor a callback bind with address 0x34
whose `initImpl` fails is followed, once register 3 holds the chip id, by a
callback bind with address 0x35 that returns true.  That second call is the first
bind to return success, yet the address stored and handed to the read callback
afterwards is 0x34, not 0x35. -/
theorem first_successful_bind_keeps_earlier_address :
    retryFirst.1 = false ∧ retrySecond.1 = true ∧ retrySecond.2.1.__addr = 0x34 ∧
      (readRegister (quietEnv Platform.espIdf) retrySecond.2.1 retrySecond.2.2 0x10).2.trace
        = [Event.initImpl, Event.writeCallback 0x34 3 [0x4A] 1, Event.initImpl,
            Event.readCallback 0x34 0x10 [0] 1] := by
  decide

/-- C11, amended: when a bind call of any public form returns success on an
accessor that is not yet initialized (as the first bind call on a fresh accessor
is), the address given to it is stored, and after any later sequence of bind
calls of any form with any arguments, protected `begin()` calls and register
operations, whatever `initImpl` returns, the stored address is still that
address and every call made to the transport in between was handed that
address.  More generally an initialized accessor keeps the address it holds. -/
theorem address_fixed_after_bind {σ β : Type} (env : Env β) (initImpl : InitImpl σ β)
    (a : XPowersCommon σ) (w : World σ β) (sts : List (Step σ)) :
    (∀ b : BindCall σ, a.__has_init = false → (runBind env initImpl a w b).1 = true →
      (runBind env initImpl a w b).2.1.__addr = b.addr ∧
      (runSteps env initImpl (runBind env initImpl a w b).2 sts).1.__addr = b.addr ∧
      UsesAddr b.addr (runBind env initImpl a w b).2.2
        (runSteps env initImpl (runBind env initImpl a w b).2 sts).2) ∧
    (a.__has_init = true →
      (runSteps env initImpl (a, w) sts).1.__addr = a.__addr ∧
      UsesAddr a.__addr w (runSteps env initImpl (a, w) sts).2) := by
  constructor
  · intro b h0 hs
    have k := runBind_first_success env initImpl a w b h0 hs
    have k2 := runSteps_initialized env initImpl sts (runBind env initImpl a w b).2 k.1
    rw [k.2] at k2
    exact ⟨k.2, k2.2.1, k2.2.2⟩
  · intro h
    have k := runSteps_initialized env initImpl sts (a, w) h
    exact ⟨k.2.1, k.2.2⟩

/-- C11, on a fresh accessor: an ESP-IDF port bind with address 0x34 succeeds,
then a callback bind with address 0x35, a port bind with address 0x36 and a
register read follow; the stored address is still 0x34. -/
theorem address_fixed_after_bind_witness :
    (runSteps espEnv passingInit
        (runBind espEnv passingInit freshAccessor zeroWorld (BindCall.port 1 0x34 21 22)).2
        [Step.bind (BindCall.callback 0x35 (some regFileRead) (some regFileWrite)),
          Step.bind (BindCall.port 2 0x36 4 5), Step.op (RegOp.readRegister 0x10)]).1.__addr
      = 0x34 :=
  ((address_fixed_after_bind espEnv passingInit freshAccessor zeroWorld
      [Step.bind (BindCall.callback 0x35 (some regFileRead) (some regFileWrite)),
        Step.bind (BindCall.port 2 0x36 4 5), Step.op (RegOp.readRegister 0x10)]).1
    (BindCall.port 1 0x34 21 22) rfl rfl).2.1

end XPowers
